import Mathlib

/-
  Verification development for the wetterdienst geospatial station resolver,
  the DWD radar request parameter validator, and the WSV pegel value collector.

  The repository excerpt contains the behavioural test-suites of the resolver
  and of the validator together with the WSV pegel provider module.  The
  resolver and validator implementations themselves are not part of the
  excerpt, so they are modelled from the specification, pinned to the exact
  behaviour the in-repository tests assert.
-/

namespace Wetterdienst

/-! ### Geospatial core -/

open Classical in
/-- Modelled from the spec: degree to radian conversion used by the
    geospatial resolver (latitude and longitude converted to radians). -/
noncomputable def radians (deg : ℝ) : ℝ := deg * Real.pi / 180

/-- Coordinates value type: paired latitude and longitude sequences
    (wetterdienst.util.geo.Coordinates). -/
structure Coordinates where
  latitudes : List ℝ
  longitudes : List ℝ

/-- Modelled from the spec: great-circle central angle between two points
    given in degrees, computed with the haversine formula on the unit sphere.
    This is the distance metric of the nearest-neighbour resolver; the in-repo
    test test_derive_nearest_neighbours pins its values (radians, not km). -/
noncomputable def haversineAngle (lat1 lon1 lat2 lon2 : ℝ) : ℝ :=
  2 * Real.arcsin (Real.sqrt (
    Real.sin ((radians lat2 - radians lat1) / 2) ^ 2 +
      Real.cos (radians lat1) * Real.cos (radians lat2) *
        Real.sin ((radians lon2 - radians lon1) / 2) ^ 2))

/-- Ordering of (distance, station index) pairs by distance. -/
def distLE : ℝ × ℕ → ℝ × ℕ → Prop := fun a b => a.1 ≤ b.1

noncomputable instance : DecidableRel distLE := fun _ _ => Classical.propDecidable _

instance : IsTotal (ℝ × ℕ) distLE := ⟨fun a b => le_total a.1 b.1⟩

instance : IsTrans (ℝ × ℕ) distLE := ⟨fun _ _ _ h1 h2 => le_trans h1 h2⟩

/-- Modelled from the spec: the list of (central angle, station row index)
    pairs of every station of the table relative to one query point. -/
noncomputable def stationAnglePairs (latitudes longitudes : List ℝ) (qlat qlon : ℝ) :
    List (ℝ × ℕ) :=
  (List.range latitudes.length).map fun m =>
    (haversineAngle qlat qlon (latitudes.getD m 0) (longitudes.getD m 0), m)

/-- Modelled from the spec: wetterdienst.util.geo.derive_nearest_neighbours.
    For each query point it returns the number_nearby smallest central angles
    in ascending order together with the row indices of the matching stations.
    The implementation file is absent from the excerpt; the distances are
    central angles on the unit sphere as the in-repo test asserts. -/
noncomputable def derive_nearest_neighbours (latitudes longitudes : List ℝ)
    (coordinates : Coordinates) (number_nearby : ℕ) :
    List (List ℝ) × List (List ℕ) :=
  let ranked := (coordinates.latitudes.zip coordinates.longitudes).map fun q =>
    (List.insertionSort distLE (stationAnglePairs latitudes longitudes q.1 q.2)).take
      number_nearby
  (ranked.map (List.map Prod.fst), ranked.map (List.map Prod.snd))

/-! ### Station filter engine -/

/-- The two error kinds of the core (spec section 7). -/
inductive WdError where
  | valueError (msg : String)
  | invalidEnumeration (msg : String)
deriving DecidableEq

/-- One row of the station metadata table. -/
structure StationRecord where
  station_id : String
  from_date : Option String
  to_date : Option String
  height : ℝ
  latitude : ℝ
  longitude : ℝ
  name : String
  state : String

instance : Inhabited StationRecord := ⟨⟨"", none, none, 0, 0, 0, "", ""⟩⟩

/-- Result of a station filter: rows annotated with a distance column
    (rank and distance filters) or plain rows (bbox filter). -/
inductive FilterResult where
  | withDistance (rows : List (StationRecord × ℝ))
  | plain (rows : List StationRecord)

/-- Distance unit accepted by filter_by_distance. -/
inductive DistanceUnit where
  | km
  | mi

/-- Modelled from the spec: mean Earth radius in kilometers used to scale
    central angles into kilometers (the in-repo expected station frame pins
    the factor 6371). -/
def EARTH_RADIUS : ℝ := 6371

/-- Modelled from the spec: conversion of the supplied maximum distance to
    kilometers, 1 mile = 1.609344 km. -/
noncomputable def toKm : DistanceUnit → ℝ → ℝ
  | .km, d => d
  | .mi, d => d * 1.609344

/-- Modelled from the spec: all stations of the table ranked by ascending
    distance from the query point, annotated with the distance in kilometers.
    Shared by the rank filter and the distance filter. -/
noncomputable def rankedWithDistance (table : List StationRecord)
    (latitude longitude : ℝ) (k : ℕ) : List (StationRecord × ℝ) :=
  let res := derive_nearest_neighbours (table.map (fun s => s.latitude))
    (table.map (fun s => s.longitude)) ⟨[latitude], [longitude]⟩ k
  ((res.2.getD 0 []).zip (res.1.getD 0 [])).map fun p =>
    (table.getD p.1 default, EARTH_RADIUS * p.2)

/-- Modelled from the spec: filter_by_rank. Requires at least one station to
    be requested, runs the nearest-neighbour resolver with k equal to the
    requested count and returns the matched rows annotated with the distance
    in kilometers, ascending. -/
noncomputable def filter_by_rank (table : List StationRecord)
    (latitude longitude : ℝ) (number_of_stations : ℤ) :
    Except WdError FilterResult :=
  if number_of_stations < 1 then
    .error (.valueError ("'number_of_stations' has to be at least 1"))
  else
    .ok (.withDistance (rankedWithDistance table latitude longitude
      number_of_stations.toNat))

open Classical in
/-- Modelled from the spec: filter_by_distance. Requires a positive maximum
    distance, converts it to kilometers, ranks all stations by distance and
    keeps the ascending prefix within the maximum distance. -/
noncomputable def filter_by_distance (table : List StationRecord)
    (latitude longitude max_distance : ℝ) (unit : DistanceUnit) :
    Except WdError FilterResult :=
  if max_distance ≤ 0 then
    .error (.valueError ("'max_distance' has to be above zero"))
  else
    let maxKm := toKm unit max_distance
    .ok (.withDistance ((rankedWithDistance table latitude longitude
      table.length).takeWhile fun p => decide (p.2 ≤ maxKm)))

open Classical in
/-- Modelled from the spec: filter_by_bbox. Requires left below right and
    bottom below top, and selects the rows whose coordinates lie within the
    closed rectangle; no distance column is added. -/
noncomputable def filter_by_bbox (table : List StationRecord)
    (left bottom right top : ℝ) : Except WdError FilterResult :=
  if left ≥ right ∨ bottom ≥ top then
    .error (.valueError ("bbox left border should be smaller than right and bottom smaller than top"))
  else
    .ok (.plain (table.filter fun s =>
      decide (left ≤ s.longitude ∧ s.longitude ≤ right ∧
        bottom ≤ s.latitude ∧ s.latitude ≤ top)))

/-! ### DWD radar request parameter validator -/

/-- Radar parameters appearing in the validator tests. -/
inductive DwdRadarParameter where
  | PE_ECHO_TOP
  | PX_REFLECTIVITY
  | SWEEP_PCP_VELOCITY_H
  | SWEEP_VOL_VELOCITY_H
  | RX_REFLECTIVITY
  | RADOLAN_CDC
deriving DecidableEq

/-- Modelled from the spec: the site-scoped parameter family; these radar
    products are organised per radar site and need a site and a format. -/
def RADAR_PARAMETERS_SITES : List DwdRadarParameter :=
  [.PE_ECHO_TOP, .PX_REFLECTIVITY, .SWEEP_PCP_VELOCITY_H, .SWEEP_VOL_VELOCITY_H]

/-- Radar sites appearing in the tests. -/
inductive DwdRadarSite where
  | BOO
  | DRS
  | ESS
deriving DecidableEq

/-- Radar data transmission formats. -/
inductive DwdRadarDataFormat where
  | BINARY
  | BUFR
  | HDF5
deriving DecidableEq

/-- HDF5 data subsets. -/
inductive DwdRadarSubset where
  | SIMPLE
  | POLARIMETRIC
deriving DecidableEq

/-- Radar periods. -/
inductive DwdRadarPeriod where
  | HISTORICAL
  | RECENT
deriving DecidableEq

/-- Time resolutions of the RADOLAN_CDC products. -/
inductive DwdRadarResolution where
  | DAILY
  | HOURLY
  | MINUTE_5
deriving DecidableEq

/-- A start date: one of the symbolic keywords or a concrete timestamp. -/
inductive DwdRadarDate where
  | LATEST
  | CURRENT
  | MOST_RECENT
  | timestamp (t : String)
deriving DecidableEq

/-- The raw keyword arguments of a DwdRadarValues request before validation.
    The resolution is supplied as a raw tag to be parsed against the
    enumeration, as in the tests. -/
structure RadarRequestInput where
  parameter : DwdRadarParameter
  site : Option DwdRadarSite
  fmt : Option DwdRadarDataFormat
  subset : Option DwdRadarSubset
  resolution : Option String
  period : Option DwdRadarPeriod
  start_date : DwdRadarDate

/-- A validated radar request object. -/
structure DwdRadarValues where
  parameter : DwdRadarParameter
  site : Option DwdRadarSite
  fmt : Option DwdRadarDataFormat
  subset : Option DwdRadarSubset
  resolution : Option DwdRadarResolution
  period : Option DwdRadarPeriod
  start_date : DwdRadarDate

/-- Modelled from the spec: parsing of the supplied resolution tag against
    the DwdRadarResolution enumeration; an unknown tag is an
    InvalidEnumeration failure, distinct from a ValueError. -/
def parseRadarResolution : Option String → Except WdError (Option DwdRadarResolution)
  | none => .ok none
  | some s =>
    if s = "daily" then .ok (some .DAILY)
    else if s = "hourly" then .ok (some .HOURLY)
    else if s = "minute_5" then .ok (some .MINUTE_5)
    else .error (.invalidEnumeration ("'" ++ s ++ "' could not be parsed from DwdRadarResolution"))

/-- Modelled from the spec: construction-time validation of a radar request
    (DwdRadarValues constructor). The checks run in a fixed order and the
    first violation is surfaced; the order is pinned by the in-repo tests
    (site before format, the latest-file checks before the subset check). -/
def validateRadarRequest (req : RadarRequestInput) : Except WdError DwdRadarValues :=
  match parseRadarResolution req.resolution with
  | .error e => .error e
  | .ok res =>
    if req.parameter = .RADOLAN_CDC ∧ res ≠ some .DAILY ∧ res ≠ some .HOURLY then
      .error (.valueError ("RADOLAN_CDC only supports daily and hourly resolutions"))
    else if req.parameter ∈ RADAR_PARAMETERS_SITES ∧ req.site = none then
      .error (.valueError ("Argument 'site' is missing"))
    else if req.parameter ∈ RADAR_PARAMETERS_SITES ∧ req.fmt = none then
      .error (.valueError ("Argument 'format' is missing"))
    else if req.start_date = .LATEST ∧ req.parameter = .RADOLAN_CDC then
      .error (.valueError ("RADOLAN_CDC data has no '-latest-' files"))
    else if req.start_date = .LATEST ∧ req.fmt = some .HDF5 then
      .error (.valueError ("HDF5 data has no '-latest-' files"))
    else if req.fmt = some .HDF5 ∧ req.subset = none then
      .error (.valueError ("Argument 'subset' is missing"))
    else
      .ok ⟨req.parameter, req.site, req.fmt, req.subset, res, req.period, req.start_date⟩

/-- Modelled from the spec: the declarative rule table of the validator
    (spec section 4.3) as one satisfiability predicate: the resolution tag
    is a member of the enumeration, RADOLAN_CDC only at daily or hourly
    resolution, site-scoped families need a site and a format, the LATEST
    keyword is unsupported for RADOLAN_CDC and for the HDF5 format, and the
    HDF5 format needs a subset. -/
def ruleTableOk (req : RadarRequestInput) : Prop :=
  (∃ res, parseRadarResolution req.resolution = .ok res ∧
    (req.parameter = .RADOLAN_CDC → res = some .DAILY ∨ res = some .HOURLY)) ∧
  (req.parameter ∈ RADAR_PARAMETERS_SITES → req.site ≠ none ∧ req.fmt ≠ none) ∧
  (req.start_date = .LATEST → req.parameter ≠ .RADOLAN_CDC ∧ req.fmt ≠ some .HDF5) ∧
  (req.fmt = some .HDF5 → req.subset ≠ none)

/-! ### WSV pegel value collector (wetterdienst/provider/wsv/pegel/api.py) -/

/-- WsvPegelParameter.ALL: the pegelonline parameters. -/
inductive WsvPegelParameter where
  | WATER_LEVEL
deriving DecidableEq

/-- The enum value of a pegelonline parameter. -/
def WsvPegelParameter.value : WsvPegelParameter → String
  | .WATER_LEVEL => "W"

/-- Outcome of the filesystem cat call; a missing remote file surfaces as
    FileNotFoundError, anything else propagates. -/
inductive FsError where
  | fileNotFound
  | other (msg : String)
deriving DecidableEq

/-- Modelled from the spec: ASCII lowercasing of an enum value, as Python
    str.lower does on the parameter values used here. -/
def strToLower (s : String) : String := ⟨s.data.map Char.toLower⟩

/-- One record of the measurements.json payload, as parsed by read_json. -/
structure RawMeasurement where
  timestamp : String
  value : ℝ

/-- One row of the frame produced by the collector: timestamp renamed to
    date, value kept, and the parameter column appended. -/
structure PegelRow where
  date : String
  value : ℝ
  parameter : String

/-- The measurements endpoint of WsvPegelValues with the station id and the
    parameter value interpolated. -/
def wsvEndpoint (station_id : String) (parameter : String) : String :=
  "https://pegelonline.wsv.de/webservices/rest-api/v2/stations/" ++ station_id ++
    "/" ++ parameter ++ "/measurements.json"

/-- WsvPegelValues._collect_station_parameter: fetch the measurements of one
    station and parameter, return an empty frame when the remote file is
    missing, otherwise rename timestamp to date and value to value and append
    the lowercased parameter value as the parameter column. The filesystem
    is the injected collaborator performing the fetch. -/
def collect_station_parameter (fs : String → Except FsError (List RawMeasurement))
    (station_id : String) (parameter : WsvPegelParameter) :
    Except FsError (List PegelRow) :=
  match fs (wsvEndpoint station_id parameter.value) with
  | .error .fileNotFound => .ok []
  | .error e => .error e
  | .ok raw => .ok (raw.map fun m => ⟨m.timestamp, m.value, strToLower parameter.value⟩)

/-! ### Concrete fixtures from the test-suite -/

/-- Station 02480 Kahl/Main of the expected stations frame. -/
noncomputable def kahl : StationRecord :=
  ⟨"02480", some ("2004-09-01"), none, 108, 50.0643, 8.993, "Kahl/Main", "Bayern"⟩

/-- Station 04411 Schaafheim-Schlierbach of the expected stations frame. -/
noncomputable def schaafheim : StationRecord :=
  ⟨"04411", some ("2002-01-24"), none, 155, 49.9195, 8.9671, "Schaafheim-Schlierbach", "Hessen"⟩

/-- Station 07341 Offenbach-Wetterpark of the expected stations frame. -/
noncomputable def offenbach : StationRecord :=
  ⟨"07341", some ("2005-07-16"), none, 119, 50.0899, 8.7862, "Offenbach-Wetterpark", "Hessen"⟩

/-- The three-station table of the geospatial scenario. -/
noncomputable def exampleStations : List StationRecord := [kahl, schaafheim, offenbach]

/-- Station latitudes of the test_derive_nearest_neighbours metadata frame. -/
noncomputable def metaLats : List ℝ := [52.1042, 52.8568, 49.9195, 55.0, 48.2639, 51.2835]

/-- Station longitudes of the test_derive_nearest_neighbours metadata frame. -/
noncomputable def metaLons : List ℝ := [8.7521, 11.1319, 8.9671, 6.3333, 8.8134, 9.359]

/-- The two query points of test_derive_nearest_neighbours. -/
noncomputable def testCoords : Coordinates := ⟨[50.0, 51.4], [8.9, 9.3]⟩

/-! ### Interval-arithmetic helpers for the haversine metric -/

lemma radians_bounds {d lo hi : ℝ} (hd : 0 ≤ d)
    (hlo : lo ≤ d * 3.141592 / 180) (hhi : d * 3.141593 / 180 ≤ hi) :
    lo ≤ radians d ∧ radians d ≤ hi := by
  unfold radians
  have h1 := mul_le_mul_of_nonneg_left (le_of_lt Real.pi_gt_d6) hd
  have h2 := mul_le_mul_of_nonneg_left (le_of_lt Real.pi_lt_d6) hd
  constructor
  · linarith
  · linarith

lemma sin_sq_bounds {x a b lo hi : ℝ} (ha : a ≤ x) (hb : x ≤ b) (h0 : 0 < a) (h1 : b ≤ 1)
    (hq : b ^ 3 / 4 ≤ a)
    (hlo : lo ≤ (a - b ^ 3 / 4) ^ 2) (hhi : b ^ 2 ≤ hi) :
    lo ≤ Real.sin x ^ 2 ∧ Real.sin x ^ 2 ≤ hi := by
  have hx0 : 0 < x := lt_of_lt_of_le h0 ha
  have h2 : Real.sin x < x := Real.sin_lt hx0
  have h3 : x - x ^ 3 / 4 < Real.sin x := Real.sin_gt_sub_cube hx0 (hb.trans h1)
  have hx3 : x ^ 3 ≤ b ^ 3 := pow_le_pow_left (le_of_lt hx0) hb 3
  have hsl : a - b ^ 3 / 4 ≤ Real.sin x := by linarith
  have hsu : Real.sin x ≤ b := le_trans (le_of_lt h2) hb
  have hs0 : 0 ≤ Real.sin x := le_trans (by linarith) hsl
  constructor
  · exact le_trans hlo (le_trans (pow_le_pow_left (by linarith) hsl 2) (le_refl _))
  · exact le_trans (pow_le_pow_left hs0 hsu 2) hhi

lemma cos_taylor_bounds {x a b lo hi : ℝ} (ha : a ≤ x) (hb : x ≤ b) (h0 : 0 ≤ a) (h1 : b ≤ 1)
    (hlo : lo ≤ 1 - b ^ 2 / 2 - b ^ 4 * (5 / 96)) (hhi : 1 - a ^ 2 / 2 + b ^ 4 * (5 / 96) ≤ hi) :
    lo ≤ Real.cos x ∧ Real.cos x ≤ hi := by
  have hx0 : 0 ≤ x := le_trans h0 ha
  have hxab : |x| ≤ 1 := by rw [abs_of_nonneg hx0]; linarith
  have h := Real.cos_bound hxab
  rw [abs_of_nonneg hx0, abs_le] at h
  have hx2a : a ^ 2 ≤ x ^ 2 := pow_le_pow_left h0 ha 2
  have hx2b : x ^ 2 ≤ b ^ 2 := pow_le_pow_left hx0 hb 2
  have hx4 : x ^ 4 ≤ b ^ 4 := pow_le_pow_left hx0 hb 4
  have hx40 : 0 ≤ x ^ 4 := by positivity
  constructor
  · linarith [h.1]
  · linarith [h.2]

lemma cos_double_bounds {t u α β lo hi : ℝ} (hu : u = 2 * t)
    (h1 : α ≤ Real.cos t) (h2 : Real.cos t ≤ β) (h0 : 0 ≤ α)
    (hlo : lo ≤ 2 * α ^ 2 - 1) (hhi : 2 * β ^ 2 - 1 ≤ hi) :
    lo ≤ Real.cos u ∧ Real.cos u ≤ hi := by
  subst hu
  rw [Real.cos_two_mul]
  have hc2a : α ^ 2 ≤ Real.cos t ^ 2 := pow_le_pow_left h0 h1 2
  have hc2b : Real.cos t ^ 2 ≤ β ^ 2 := pow_le_pow_left (le_trans h0 h1) h2 2
  constructor
  · linarith
  · linarith

lemma sqrt_bounds {y m M : ℝ} (h1 : m ^ 2 ≤ y) (h2 : y ≤ M ^ 2) (hm : 0 ≤ m) (hM : 0 ≤ M) :
    m ≤ Real.sqrt y ∧ Real.sqrt y ≤ M := by
  constructor
  · have h := Real.sqrt_le_sqrt h1
    rwa [Real.sqrt_sq hm] at h
  · have h := Real.sqrt_le_sqrt h2
    rwa [Real.sqrt_sq hM] at h

lemma le_arcsin_small {s : ℝ} (h0 : 0 ≤ s) (h1 : s ≤ 1) : s ≤ Real.arcsin s := by
  rcases eq_or_lt_of_le h0 with h | h
  · rw [← h, Real.arcsin_zero]
  · have hp : 0 < Real.arcsin s := Real.arcsin_pos.2 h
    have hs : Real.sin (Real.arcsin s) = s := Real.sin_arcsin (by linarith) h1
    have hlt := Real.sin_lt hp
    rw [hs] at hlt
    exact le_of_lt hlt

lemma arcsin_le_small {s : ℝ} (h0 : 0 ≤ s) (h1 : s ≤ 1 / 500) :
    Real.arcsin s ≤ s * (1 + 1 / 300000) := by
  have hs1 : s ≤ 1 := by linarith
  have hθ0 : 0 ≤ Real.arcsin s := Real.arcsin_nonneg.2 h0
  have hθπ : Real.arcsin s ≤ Real.pi / 2 := Real.arcsin_le_pi_div_two s
  have hsin : Real.sin (Real.arcsin s) = s := Real.sin_arcsin (by linarith) hs1
  have hπ0 : (0 : ℝ) < Real.pi := Real.pi_pos
  have hj : 2 / Real.pi * Real.arcsin s ≤ s := by
    have h := Real.mul_le_sin hθ0 hθπ
    rwa [hsin] at h
  rw [div_mul_eq_mul_div, div_le_iff hπ0] at hj
  have hπ : Real.pi < 3.15 := Real.pi_lt_d2
  have hsπ : s * Real.pi ≤ s * 3.15 := mul_le_mul_of_nonneg_left (le_of_lt hπ) h0
  have hθb : Real.arcsin s ≤ 0.00315 := by nlinarith
  rcases eq_or_lt_of_le h0 with h | h
  · rw [← h, Real.arcsin_zero]
    norm_num
  · have hθp : 0 < Real.arcsin s := Real.arcsin_pos.2 h
    have hcube := Real.sin_gt_sub_cube hθp (by linarith : Real.arcsin s ≤ 1)
    rw [hsin] at hcube
    have hθsq : Real.arcsin s ^ 2 ≤ 0.00315 ^ 2 := pow_le_pow_left hθ0 hθb 2
    have h3 : Real.arcsin s ^ 3 ≤ Real.arcsin s * 0.00315 ^ 2 := by nlinarith
    linarith

lemma haversineAngle_of_bounds {lat1 lon1 lat2 lon2 E m M lo hi : ℝ}
    (hEdef : Real.sin ((radians lat2 - radians lat1) / 2) ^ 2 +
      Real.cos (radians lat1) * Real.cos (radians lat2) *
        Real.sin ((radians lon2 - radians lon1) / 2) ^ 2 = E)
    (hE1 : m ^ 2 ≤ E) (hE2 : E ≤ M ^ 2) (hm : 0 ≤ m) (hM : 0 ≤ M) (hM5 : M ≤ 1 / 500)
    (hlo : lo ≤ 2 * m) (hhi : 2 * (M * (1 + 1 / 300000)) ≤ hi) :
    lo ≤ haversineAngle lat1 lon1 lat2 lon2 ∧ haversineAngle lat1 lon1 lat2 lon2 ≤ hi := by
  unfold haversineAngle
  rw [hEdef]
  have hsq := sqrt_bounds hE1 hE2 hm hM
  have h1 := le_arcsin_small (Real.sqrt_nonneg E) (le_trans hsq.2 (by linarith))
  have h2 := arcsin_le_small (Real.sqrt_nonneg E) (le_trans hsq.2 hM5)
  have h3 := mul_le_mul_of_nonneg_right hsq.2
    (show (0 : ℝ) ≤ 1 + 1 / 300000 by norm_num)
  constructor
  · linarith [hsq.1]
  · linarith

lemma cos_radians_pos {d : ℝ} (h0 : 0 ≤ d) (h1 : d ≤ 89) : 0 < Real.cos (radians d) := by
  have hπ := Real.pi_pos
  apply Real.cos_pos_of_mem_Ioo
  constructor
  · have hd : 0 ≤ radians d := by unfold radians; positivity
    linarith
  · unfold radians
    have hd : d * Real.pi ≤ 89 * Real.pi :=
      mul_le_mul_of_nonneg_right h1 (le_of_lt hπ)
    linarith

lemma sin_half_diff_sq_le_quarter {u v : ℝ} (h : (v - u) ^ 2 ≤ 3000) :
    Real.sin ((radians v - radians u) / 2) ^ 2 ≤ 1 / 4 := by
  have h1 : Real.sin ((radians v - radians u) / 2) ^ 2 ≤ ((radians v - radians u) / 2) ^ 2 :=
    Real.sin_sq_le_sq
  have h2 : ((radians v - radians u) / 2) ^ 2 = (v - u) ^ 2 * (Real.pi / 360) ^ 2 := by
    unfold radians; ring
  have h3 : Real.pi ≤ 3.15 := le_of_lt Real.pi_lt_d2
  have h4 : (0 : ℝ) < Real.pi := Real.pi_pos
  have h5 : (Real.pi / 360) ^ 2 ≤ (3.15 / 360 : ℝ) ^ 2 := by nlinarith
  have h6 : (v - u) ^ 2 * (Real.pi / 360) ^ 2 ≤ 3000 * (3.15 / 360 : ℝ) ^ 2 :=
    mul_le_mul h h5 (by positivity) (by norm_num)
  rw [h2] at h1
  linarith

lemma haversineAngle_km_gt_one {lat1 lon1 lat2 lon2 : ℝ}
    (hs1 : ((1 : ℝ) / 6000) ^ 2 ≤ Real.sin ((radians lat2 - radians lat1) / 2) ^ 2)
    (hs1u : Real.sin ((radians lat2 - radians lat1) / 2) ^ 2 ≤ 1 / 4)
    (hc1 : 0 < Real.cos (radians lat1)) (hc2 : 0 < Real.cos (radians lat2))
    (hs2 : Real.sin ((radians lon2 - radians lon1) / 2) ^ 2 ≤ 1 / 4) :
    1 < EARTH_RADIUS * haversineAngle lat1 lon1 lat2 lon2 := by
  unfold haversineAngle EARTH_RADIUS
  have hcc : 0 ≤ Real.cos (radians lat1) * Real.cos (radians lat2) :=
    le_of_lt (mul_pos hc1 hc2)
  have hcc1 : Real.cos (radians lat1) * Real.cos (radians lat2) ≤ 1 :=
    mul_le_one (Real.cos_le_one _) (le_of_lt hc2) (Real.cos_le_one _)
  have hprod : Real.cos (radians lat1) * Real.cos (radians lat2) *
      Real.sin ((radians lon2 - radians lon1) / 2) ^ 2 ≤ 1 / 4 := by
    have := mul_le_mul hcc1 hs2 (sq_nonneg _) (by norm_num)
    linarith
  have hprod0 : 0 ≤ Real.cos (radians lat1) * Real.cos (radians lat2) *
      Real.sin ((radians lon2 - radians lon1) / 2) ^ 2 :=
    mul_nonneg hcc (sq_nonneg _)
  have hsq := sqrt_bounds
    (show ((1 : ℝ) / 6000) ^ 2 ≤ Real.sin ((radians lat2 - radians lat1) / 2) ^ 2 +
      Real.cos (radians lat1) * Real.cos (radians lat2) *
        Real.sin ((radians lon2 - radians lon1) / 2) ^ 2 by linarith)
    (show Real.sin ((radians lat2 - radians lat1) / 2) ^ 2 +
      Real.cos (radians lat1) * Real.cos (radians lat2) *
        Real.sin ((radians lon2 - radians lon1) / 2) ^ 2 ≤ (1 : ℝ) ^ 2 by nlinarith)
    (by norm_num) (by norm_num)
  have harc := le_arcsin_small (Real.sqrt_nonneg _) hsq.2
  nlinarith [hsq.1, harc]

lemma cosq_bounds :
    0.642040556502 ≤ Real.cos (radians 50.0) ∧ Real.cos (radians 50.0) ≤ 0.64287090689 := by
  have hr : (0.872664444444 : ℝ) ≤ radians 50.0 ∧ radians 50.0 ≤ 0.872664722223 :=
    radians_bounds (by norm_num) (by norm_num) (by norm_num)
  have h1 : (0.994043065276 : ℝ) ≤ Real.cos (radians 50.0 / 8) ∧ Real.cos (radians 50.0 / 8) ≤ 0.994057817927 :=
    cos_taylor_bounds (show (0.109083055555 : ℝ) ≤ radians 50.0 / 8 by linarith [hr.1])
      (show radians 50.0 / 8 ≤ (0.109083090278 : ℝ) by linarith [hr.2])
      (by norm_num) (by norm_num) (by norm_num) (by norm_num)
  have h2 : (0.976243231246 : ℝ) ≤ Real.cos (radians 50.0 / 4) ∧ Real.cos (radians 50.0 / 4) ≤ 0.976301890764 :=
    cos_double_bounds (show radians 50.0 / 4 = 2 * (radians 50.0 / 8) by ring) h1.1 h1.2
      (by norm_num) (by norm_num) (by norm_num)
  have h3 : (0.906101693107 : ℝ) ≤ Real.cos (radians 50.0 / 2) ∧ Real.cos (radians 50.0 / 2) ≤ 0.906330763819 :=
    cos_double_bounds (show radians 50.0 / 2 = 2 * (radians 50.0 / 4) by ring) h2.1 h2.2
      (by norm_num) (by norm_num) (by norm_num)
  have h4 : (0.642040556502 : ℝ) ≤ Real.cos (radians 50.0) ∧ Real.cos (radians 50.0) ≤ 0.64287090689 :=
    cos_double_bounds (show radians 50.0 = 2 * (radians 50.0 / 2) by ring) h3.1 h3.2
      (by norm_num) (by norm_num) (by norm_num)
  exact h4

lemma cosK_bounds :
    0.641176866811 ≤ Real.cos (radians 50.0643) ∧ Real.cos (radians 50.0643) ≤ 0.642011212281 := by
  have hr : (0.87378669092 : ℝ) ≤ radians 50.0643 ∧ radians 50.0643 ≤ 0.873786969055 :=
    radians_bounds (by norm_num) (by norm_num) (by norm_num)
  have h1 : (0.994027715161 : ℝ) ≤ Real.cos (radians 50.0643 / 8) ∧ Real.cos (radians 50.0643 / 8) ≤ 0.994042543835 :=
    cos_taylor_bounds (show (0.109223336365 : ℝ) ≤ radians 50.0643 / 8 by linarith [hr.1])
      (show radians 50.0643 / 8 ≤ (0.109223371132 : ℝ) by linarith [hr.2])
      (by norm_num) (by norm_num) (by norm_num) (by norm_num)
  have h2 : (0.976182197016 : ℝ) ≤ Real.cos (radians 50.0643 / 4) ∧ Real.cos (radians 50.0643 / 4) ≤ 0.976241157908 :=
    cos_double_bounds (show radians 50.0643 / 4 = 2 * (radians 50.0643 / 8) by ring) h1.1 h1.2
      (by norm_num) (by norm_num) (by norm_num)
  have h3 : (0.905863363541 : ℝ) ≤ Real.cos (radians 50.0643 / 2) ∧ Real.cos (radians 50.0643 / 2) ≤ 0.906093596788 :=
    cos_double_bounds (show radians 50.0643 / 2 = 2 * (radians 50.0643 / 4) by ring) h2.1 h2.2
      (by norm_num) (by norm_num) (by norm_num)
  have h4 : (0.641176866811 : ℝ) ≤ Real.cos (radians 50.0643) ∧ Real.cos (radians 50.0643) ≤ 0.642011212281 :=
    cos_double_bounds (show radians 50.0643 = 2 * (radians 50.0643 / 2) by ring) h3.1 h3.2
      (by norm_num) (by norm_num) (by norm_num)
  exact h4

lemma cosS_bounds :
    0.643120689558 ≤ Real.cos (radians 49.9195) ∧ Real.cos (radians 49.9195) ≤ 0.643946056912 := by
  have hr : (0.871259454688 : ℝ) ≤ radians 49.9195 ∧ radians 49.9195 ≤ 0.87125973202 :=
    radians_bounds (by norm_num) (by norm_num) (by norm_num)
  have h1 : (0.994062254815 : ℝ) ≤ Real.cos (radians 49.9195 / 8) ∧ Real.cos (radians 49.9195 / 8) ≤ 0.9940769127 :=
    cos_taylor_bounds (show (0.108907431836 : ℝ) ≤ radians 49.9195 / 8 by linarith [hr.1])
      (show radians 49.9195 / 8 ≤ (0.108907466503 : ℝ) by linarith [hr.2])
      (by norm_num) (by norm_num) (by norm_num) (by norm_num)
  have h2 : (0.976319532895 : ℝ) ≤ Real.cos (radians 49.9195 / 4) ∧ Real.cos (radians 49.9195 / 4) ≤ 0.976377816727 :=
    cos_double_bounds (show radians 49.9195 / 4 = 2 * (radians 49.9195 / 8) by ring) h1.1 h1.2
      (by norm_num) (by norm_num) (by norm_num)
  have h3 : (0.906399660624 : ℝ) ≤ Real.cos (radians 49.9195 / 2) ∧ Real.cos (radians 49.9195 / 2) ≤ 0.906627281994 :=
    cos_double_bounds (show radians 49.9195 / 2 = 2 * (radians 49.9195 / 4) by ring) h2.1 h2.2
      (by norm_num) (by norm_num) (by norm_num)
  have h4 : (0.643120689558 : ℝ) ≤ Real.cos (radians 49.9195) ∧ Real.cos (radians 49.9195) ≤ 0.643946056912 :=
    cos_double_bounds (show radians 49.9195 = 2 * (radians 49.9195 / 2) by ring) h3.1 h3.2
      (by norm_num) (by norm_num) (by norm_num)
  exact h4

lemma cosO_bounds :
    0.640832774384 ≤ Real.cos (radians 50.0899) ∧ Real.cos (radians 50.0899) ≤ 0.641668714179 := by
  have hr : (0.874233495115 : ℝ) ≤ radians 50.0899 ∧ radians 50.0899 ≤ 0.874233773393 :=
    radians_bounds (by norm_num) (by norm_num) (by norm_num)
  have h1 : (0.994021598244 : ℝ) ≤ Real.cos (radians 50.0899 / 8) ∧ Real.cos (radians 50.0899 / 8) ≤ 0.994036457268 :=
    cos_taylor_bounds (show (0.109279186889 : ℝ) ≤ radians 50.0899 / 8 by linarith [hr.1])
      (show radians 50.0899 / 8 ≤ (0.109279221675 : ℝ) by linarith [hr.2])
      (by norm_num) (by norm_num) (by norm_num) (by norm_num)
  have h2 : (0.976157875551 : ℝ) ≤ Real.cos (radians 50.0899 / 4) ∧ Real.cos (radians 50.0899 / 4) ≤ 0.976216956756 :=
    cos_double_bounds (show radians 50.0899 / 4 = 2 * (radians 50.0899 / 8) by ring) h1.1 h1.2
      (by norm_num) (by norm_num) (by norm_num)
  have h3 : (0.905768396 : ℝ) ≤ Real.cos (radians 50.0899 / 2) ∧ Real.cos (radians 50.0899 / 2) ≤ 0.905999093316 :=
    cos_double_bounds (show radians 50.0899 / 2 = 2 * (radians 50.0899 / 4) by ring) h2.1 h2.2
      (by norm_num) (by norm_num) (by norm_num)
  have h4 : (0.640832774384 : ℝ) ≤ Real.cos (radians 50.0899) ∧ Real.cos (radians 50.0899) ≤ 0.641668714179 :=
    cos_double_bounds (show radians 50.0899 = 2 * (radians 50.0899 / 2) by ring) h3.1 h3.2
      (by norm_num) (by norm_num) (by norm_num)
  exact h4

lemma sinsq_d0643 :
    0.000000314859238405 ≤ Real.sin (radians 0.0643 / 2) ^ 2 ∧ Real.sin (radians 0.0643 / 2) ^ 2 ≤ 0.000000314859488421 := by
  have hr : (0.001122246475555 : ℝ) ≤ radians 0.0643 ∧ radians 0.0643 ≤ 0.001122246832778 :=
    radians_bounds (by norm_num) (by norm_num) (by norm_num)
  exact sin_sq_bounds (show (0.000561123237777 : ℝ) ≤ radians 0.0643 / 2 by linarith [hr.1])
    (show radians 0.0643 / 2 ≤ (0.000561123416389 : ℝ) by linarith [hr.2])
    (by norm_num) (by norm_num) (by norm_num) (by norm_num) (by norm_num)

lemma sinsq_d0930 :
    0.000000658658524957 ≤ Real.sin (radians 0.093 / 2) ^ 2 ∧ Real.sin (radians 0.093 / 2) ^ 2 ≤ 0.00000065865916119 := by
  have hr : (0.001623155866666 : ℝ) ≤ radians 0.093 ∧ radians 0.093 ≤ 0.001623156383334 :=
    radians_bounds (by norm_num) (by norm_num) (by norm_num)
  exact sin_sq_bounds (show (0.000811577933333 : ℝ) ≤ radians 0.093 / 2 by linarith [hr.1])
    (show radians 0.093 / 2 ≤ (0.000811578191667 : ℝ) by linarith [hr.2])
    (by norm_num) (by norm_num) (by norm_num) (by norm_num) (by norm_num)

lemma sinsq_d0805 :
    0.000000493498931532 ≤ Real.sin (radians 0.0805 / 2) ^ 2 ∧ Real.sin (radians 0.0805 / 2) ^ 2 ≤ 0.000000493499367476 := by
  have hr : (0.001404989755555 : ℝ) ≤ radians 0.0805 ∧ radians 0.0805 ≤ 0.001404990202778 :=
    radians_bounds (by norm_num) (by norm_num) (by norm_num)
  exact sin_sq_bounds (show (0.000702494877777 : ℝ) ≤ radians 0.0805 / 2 by linarith [hr.1])
    (show radians 0.0805 / 2 ≤ (0.000702495101389 : ℝ) by linarith [hr.2])
    (by norm_num) (by norm_num) (by norm_num) (by norm_num) (by norm_num)

lemma sinsq_d0671 :
    0.000000342877927804 ≤ Real.sin (radians 0.0671 / 2) ^ 2 ∧ Real.sin (radians 0.0671 / 2) ^ 2 ≤ 0.000000342878204872 := by
  have hr : (0.001171115684444 : ℝ) ≤ radians 0.0671 ∧ radians 0.0671 ≤ 0.001171116057223 :=
    radians_bounds (by norm_num) (by norm_num) (by norm_num)
  exact sin_sq_bounds (show (0.000585557842222 : ℝ) ≤ radians 0.0671 / 2 by linarith [hr.1])
    (show radians 0.0671 / 2 ≤ (0.000585558028612 : ℝ) by linarith [hr.2])
    (by norm_num) (by norm_num) (by norm_num) (by norm_num) (by norm_num)

lemma sinsq_d0899 :
    0.000000615479812719 ≤ Real.sin (radians 0.0899 / 2) ^ 2 ∧ Real.sin (radians 0.0899 / 2) ^ 2 ≤ 0.000000615480393956 := by
  have hr : (0.001569050671111 : ℝ) ≤ radians 0.0899 ∧ radians 0.0899 ≤ 0.001569051170556 :=
    radians_bounds (by norm_num) (by norm_num) (by norm_num)
  exact sin_sq_bounds (show (0.000784525335555 : ℝ) ≤ radians 0.0899 / 2 by linarith [hr.1])
    (show radians 0.0899 / 2 ≤ (0.000784525585278 : ℝ) by linarith [hr.2])
    (by norm_num) (by norm_num) (by norm_num) (by norm_num) (by norm_num)

lemma sinsq_d1138 :
    0.000000986231507787 ≤ Real.sin (radians 0.1138 / 2) ^ 2 ∧ Real.sin (radians 0.1138 / 2) ^ 2 ≤ 0.000000986232621972 := by
  have hr : (0.001986184275555 : ℝ) ≤ radians 0.1138 ∧ radians 0.1138 ≤ 0.001986184907778 :=
    radians_bounds (by norm_num) (by norm_num) (by norm_num)
  exact sin_sq_bounds (show (0.000993092137777 : ℝ) ≤ radians 0.1138 / 2 by linarith [hr.1])
    (show radians 0.1138 / 2 ≤ (0.000993092453889 : ℝ) by linarith [hr.2])
    (by norm_num) (by norm_num) (by norm_num) (by norm_num) (by norm_num)

lemma sinsq_d2_1042 :
    0.0003371284 ≤ Real.sin (radians 2.1042 / 2) ^ 2 ∧ Real.sin (radians 2.1042 / 2) ^ 2 ≤ 0.0003371855 := by
  have hr : (0.03672521048 : ℝ) ≤ radians 2.1042 ∧ radians 2.1042 ≤ 0.03672522217 :=
    radians_bounds (by norm_num) (by norm_num) (by norm_num)
  exact sin_sq_bounds (show (0.01836260524 : ℝ) ≤ radians 2.1042 / 2 by linarith [hr.1])
    (show radians 2.1042 / 2 ≤ (0.018362611085 : ℝ) by linarith [hr.2])
    (by norm_num) (by norm_num) (by norm_num) (by norm_num) (by norm_num)

lemma sinsq_d2_8568 :
    0.0006213256 ≤ Real.sin (radians 2.8568 / 2) ^ 2 ∧ Real.sin (radians 2.8568 / 2) ^ 2 ≤ 0.0006215192 := by
  have hr : (0.049860555697777 : ℝ) ≤ radians 2.8568 ∧ radians 2.8568 ≤ 0.049860571568889 :=
    radians_bounds (by norm_num) (by norm_num) (by norm_num)
  exact sin_sq_bounds (show (0.024930277848888 : ℝ) ≤ radians 2.8568 / 2 by linarith [hr.1])
    (show radians 2.8568 / 2 ≤ (0.024930285784445 : ℝ) by linarith [hr.2])
    (by norm_num) (by norm_num) (by norm_num) (by norm_num) (by norm_num)

lemma sinsq_d5_0 :
    0.0019020461 ≤ Real.sin (radians 5.0 / 2) ^ 2 ∧ Real.sin (radians 5.0 / 2) ^ 2 ≤ 0.0019038593 := by
  have hr : (0.087266444444444 : ℝ) ≤ radians 5.0 ∧ radians 5.0 ≤ 0.087266472222223 :=
    radians_bounds (by norm_num) (by norm_num) (by norm_num)
  exact sin_sq_bounds (show (0.043633222222222 : ℝ) ≤ radians 5.0 / 2 by linarith [hr.1])
    (show radians 5.0 / 2 ≤ (0.043633236111112 : ℝ) by linarith [hr.2])
    (by norm_num) (by norm_num) (by norm_num) (by norm_num) (by norm_num)

lemma sinsq_d1_7361 :
    0.000229506 ≤ Real.sin (radians 1.7361 / 2) ^ 2 ∧ Real.sin (radians 1.7361 / 2) ^ 2 ≤ 0.0002295326 := by
  have hr : (0.03030065484 : ℝ) ≤ radians 1.7361 ∧ radians 1.7361 ≤ 0.030300664485 :=
    radians_bounds (by norm_num) (by norm_num) (by norm_num)
  exact sin_sq_bounds (show (0.01515032742 : ℝ) ≤ radians 1.7361 / 2 by linarith [hr.1])
    (show radians 1.7361 / 2 ≤ (0.0151503322425 : ℝ) by linarith [hr.2])
    (by norm_num) (by norm_num) (by norm_num) (by norm_num) (by norm_num)

lemma sinsq_d1_2835 :
    0.0001254466 ≤ Real.sin (radians 1.2835 / 2) ^ 2 ∧ Real.sin (radians 1.2835 / 2) ^ 2 ≤ 0.0001254546 := by
  have hr : (0.022401296288888 : ℝ) ≤ radians 1.2835 ∧ radians 1.2835 ≤ 0.022401303419445 :=
    radians_bounds (by norm_num) (by norm_num) (by norm_num)
  exact sin_sq_bounds (show (0.011200648144444 : ℝ) ≤ radians 1.2835 / 2 by linarith [hr.1])
    (show radians 1.2835 / 2 ≤ (0.011200651709723 : ℝ) by linarith [hr.2])
    (by norm_num) (by norm_num) (by norm_num) (by norm_num) (by norm_num)

lemma angle_kahl_bounds :
    0.0015308 ≤ haversineAngle 50.0 8.9 50.0643 8.993 ∧
      haversineAngle 50.0 8.9 50.0643 8.993 ≤ 0.0015321 := by
  have e1 : (radians 50.0643 - radians 50.0) / 2 = radians 0.0643 / 2 := by
    unfold radians; ring
  have e2 : (radians 8.993 - radians 8.9) / 2 = radians 0.093 / 2 := by
    unfold radians; ring
  have hs1 := sinsq_d0643
  have hs2 := sinsq_d0930
  have hcq := cosq_bounds
  have hc2 := cosK_bounds
  have hcq0 : (0 : ℝ) ≤ Real.cos (radians 50.0) := le_trans (by norm_num) hcq.1
  have hc20 : (0 : ℝ) ≤ Real.cos (radians 50.0643) := le_trans (by norm_num) hc2.1
  have hP1 : (0.642040556502 : ℝ) * 0.641176866811 ≤ Real.cos (radians 50.0) * Real.cos (radians 50.0643) :=
    mul_le_mul hcq.1 hc2.1 (by norm_num) hcq0
  have hP2 : Real.cos (radians 50.0) * Real.cos (radians 50.0643) ≤ (0.64287090689 : ℝ) * 0.642011212281 :=
    mul_le_mul hcq.2 hc2.2 hc20 (by norm_num)
  have hPs1 : ((0.642040556502 : ℝ) * 0.641176866811) * 0.000000658658524957 ≤
      Real.cos (radians 50.0) * Real.cos (radians 50.0643) *
        Real.sin (radians 0.093 / 2) ^ 2 :=
    mul_le_mul hP1 hs2.1 (by norm_num) (le_trans (by norm_num) hP1)
  have hPs2 : Real.cos (radians 50.0) * Real.cos (radians 50.0643) *
        Real.sin (radians 0.093 / 2) ^ 2 ≤
      ((0.64287090689 : ℝ) * 0.642011212281) * 0.00000065865916119 :=
    mul_le_mul hP2 hs2.2 (sq_nonneg _) (by norm_num)
  have hE1 : (0.0007655087 : ℝ) ^ 2 ≤ Real.sin (radians 0.0643 / 2) ^ 2 +
      Real.cos (radians 50.0) * Real.cos (radians 50.0643) *
        Real.sin (radians 0.093 / 2) ^ 2 := by
    nlinarith [hs1.1, hPs1]
  have hE2 : (Real.sin (radians 0.0643 / 2) ^ 2 +
      Real.cos (radians 50.0) * Real.cos (radians 50.0643) *
        Real.sin (radians 0.093 / 2) ^ 2) ≤ (0.0007659688 : ℝ) ^ 2 := by
    nlinarith [hs1.2, hPs2]
  exact haversineAngle_of_bounds (by rw [e1, e2]) hE1 hE2
    (by norm_num) (by norm_num) (by norm_num) (by norm_num) (by norm_num)

lemma angle_schaafheim_bounds :
    0.0015938 ≤ haversineAngle 50.0 8.9 49.9195 8.9671 ∧
      haversineAngle 50.0 8.9 49.9195 8.9671 ≤ 0.0015945 := by
  have e1 : (radians 49.9195 - radians 50.0) / 2 = -(radians 0.0805 / 2) := by
    unfold radians; ring
  have e2 : (radians 8.9671 - radians 8.9) / 2 = radians 0.0671 / 2 := by
    unfold radians; ring
  have hs1 := sinsq_d0805
  have hs2 := sinsq_d0671
  have hcq := cosq_bounds
  have hc2 := cosS_bounds
  have hcq0 : (0 : ℝ) ≤ Real.cos (radians 50.0) := le_trans (by norm_num) hcq.1
  have hc20 : (0 : ℝ) ≤ Real.cos (radians 49.9195) := le_trans (by norm_num) hc2.1
  have hP1 : (0.642040556502 : ℝ) * 0.643120689558 ≤ Real.cos (radians 50.0) * Real.cos (radians 49.9195) :=
    mul_le_mul hcq.1 hc2.1 (by norm_num) hcq0
  have hP2 : Real.cos (radians 50.0) * Real.cos (radians 49.9195) ≤ (0.64287090689 : ℝ) * 0.643946056912 :=
    mul_le_mul hcq.2 hc2.2 hc20 (by norm_num)
  have hPs1 : ((0.642040556502 : ℝ) * 0.643120689558) * 0.000000342877927804 ≤
      Real.cos (radians 50.0) * Real.cos (radians 49.9195) *
        Real.sin (radians 0.0671 / 2) ^ 2 :=
    mul_le_mul hP1 hs2.1 (by norm_num) (le_trans (by norm_num) hP1)
  have hPs2 : Real.cos (radians 50.0) * Real.cos (radians 49.9195) *
        Real.sin (radians 0.0671 / 2) ^ 2 ≤
      ((0.64287090689 : ℝ) * 0.643946056912) * 0.000000342878204872 :=
    mul_le_mul hP2 hs2.2 (sq_nonneg _) (by norm_num)
  have hE1 : (0.0007969168 : ℝ) ^ 2 ≤ Real.sin (radians 0.0805 / 2) ^ 2 +
      Real.cos (radians 50.0) * Real.cos (radians 49.9195) *
        Real.sin (radians 0.0671 / 2) ^ 2 := by
    nlinarith [hs1.1, hPs1]
  have hE2 : (Real.sin (radians 0.0805 / 2) ^ 2 +
      Real.cos (radians 50.0) * Real.cos (radians 49.9195) *
        Real.sin (radians 0.0671 / 2) ^ 2) ≤ (0.0007971463 : ℝ) ^ 2 := by
    nlinarith [hs1.2, hPs2]
  exact haversineAngle_of_bounds (by rw [e1, e2, Real.sin_neg, neg_sq]) hE1 hE2
    (by norm_num) (by norm_num) (by norm_num) (by norm_num) (by norm_num)

lemma angle_offenbach_bounds :
    0.0020211 ≤ haversineAngle 50.0 8.9 50.0899 8.7862 ∧
      haversineAngle 50.0 8.9 50.0899 8.7862 ≤ 0.0020222 := by
  have e1 : (radians 50.0899 - radians 50.0) / 2 = radians 0.0899 / 2 := by
    unfold radians; ring
  have e2 : (radians 8.7862 - radians 8.9) / 2 = -(radians 0.1138 / 2) := by
    unfold radians; ring
  have hs1 := sinsq_d0899
  have hs2 := sinsq_d1138
  have hcq := cosq_bounds
  have hc2 := cosO_bounds
  have hcq0 : (0 : ℝ) ≤ Real.cos (radians 50.0) := le_trans (by norm_num) hcq.1
  have hc20 : (0 : ℝ) ≤ Real.cos (radians 50.0899) := le_trans (by norm_num) hc2.1
  have hP1 : (0.642040556502 : ℝ) * 0.640832774384 ≤ Real.cos (radians 50.0) * Real.cos (radians 50.0899) :=
    mul_le_mul hcq.1 hc2.1 (by norm_num) hcq0
  have hP2 : Real.cos (radians 50.0) * Real.cos (radians 50.0899) ≤ (0.64287090689 : ℝ) * 0.641668714179 :=
    mul_le_mul hcq.2 hc2.2 hc20 (by norm_num)
  have hPs1 : ((0.642040556502 : ℝ) * 0.640832774384) * 0.000000986231507787 ≤
      Real.cos (radians 50.0) * Real.cos (radians 50.0899) *
        Real.sin (radians 0.1138 / 2) ^ 2 :=
    mul_le_mul hP1 hs2.1 (by norm_num) (le_trans (by norm_num) hP1)
  have hPs2 : Real.cos (radians 50.0) * Real.cos (radians 50.0899) *
        Real.sin (radians 0.1138 / 2) ^ 2 ≤
      ((0.64287090689 : ℝ) * 0.641668714179) * 0.000000986232621972 :=
    mul_le_mul hP2 hs2.2 (sq_nonneg _) (by norm_num)
  have hE1 : (0.0010105718 : ℝ) ^ 2 ≤ Real.sin (radians 0.0899 / 2) ^ 2 +
      Real.cos (radians 50.0) * Real.cos (radians 50.0899) *
        Real.sin (radians 0.1138 / 2) ^ 2 := by
    nlinarith [hs1.1, hPs1]
  have hE2 : (Real.sin (radians 0.0899 / 2) ^ 2 +
      Real.cos (radians 50.0) * Real.cos (radians 50.0899) *
        Real.sin (radians 0.1138 / 2) ^ 2) ≤ (0.0010110942 : ℝ) ^ 2 := by
    nlinarith [hs1.2, hPs2]
  exact haversineAngle_of_bounds (by rw [e1, e2, Real.sin_neg, neg_sq]) hE1 hE2
    (by norm_num) (by norm_num) (by norm_num) (by norm_num) (by norm_num)


/-! ### Properties of the sorted neighbour lists -/

lemma stationAnglePairs_length (la lo : List ℝ) (q1 q2 : ℝ) :
    (stationAnglePairs la lo q1 q2).length = la.length := by
  simp [stationAnglePairs]

lemma mem_stationAnglePairs {la lo : List ℝ} {q1 q2 : ℝ} {p : ℝ × ℕ} :
    p ∈ stationAnglePairs la lo q1 q2 ↔
      p.2 < la.length ∧ p.1 = haversineAngle q1 q2 (la.getD p.2 0) (lo.getD p.2 0) := by
  unfold stationAnglePairs
  constructor
  · intro hp
    rcases List.mem_map.1 hp with ⟨m, hm, he⟩
    rcases he
    exact ⟨List.mem_range.1 hm, rfl⟩
  · intro ⟨h1, h2⟩
    refine List.mem_map.2 ⟨p.2, List.mem_range.2 h1, ?_⟩
    obtain ⟨x, y⟩ := p
    simp only at h2
    simp [h2]

lemma stationAnglePairs_map_snd (la lo : List ℝ) (q1 q2 : ℝ) :
    (stationAnglePairs la lo q1 q2).map Prod.snd = List.range la.length := by
  unfold stationAnglePairs
  rw [List.map_map]
  have he : (Prod.snd ∘ fun m =>
      (haversineAngle q1 q2 (la.getD m 0) (lo.getD m 0), m)) = id := rfl
  rw [he, List.map_id]

lemma insertionSort_cons_min {l : List (ℝ × ℕ)} {p : ℝ × ℕ} {rest : List (ℝ × ℕ)}
    (h : List.insertionSort distLE l = p :: rest) :
    p ∈ l ∧ ∀ q ∈ l, p.1 ≤ q.1 := by
  have hperm := List.perm_insertionSort distLE l
  have hsorted := List.sorted_insertionSort distLE l
  rw [h] at hperm hsorted
  constructor
  · exact hperm.subset (List.mem_cons_self p rest)
  · intro q hq
    rcases List.mem_cons.1 (hperm.mem_iff.2 hq) with h1 | h2
    · rw [h1]
    · exact List.rel_of_sorted_cons hsorted q h2

lemma exists_insertionSort_cons {l : List (ℝ × ℕ)} (h : l ≠ []) :
    ∃ p rest, List.insertionSort distLE l = p :: rest := by
  have hlen := (List.perm_insertionSort distLE l).length_eq
  cases hS : List.insertionSort distLE l with
  | nil =>
    rw [hS] at hlen
    exact absurd (List.length_eq_zero.1 hlen.symm) h
  | cons p rest => exact ⟨p, rest, rfl⟩

lemma ranked_take_spec (la lo : List ℝ) (q1 q2 : ℝ) (k : ℕ)
    (hk : k ≤ la.length) :
    ((List.insertionSort distLE (stationAnglePairs la lo q1 q2)).take k).length = k ∧
    List.Sorted (· ≤ ·)
      (((List.insertionSort distLE (stationAnglePairs la lo q1 q2)).take k).map Prod.fst) ∧
    (∀ p ∈ (List.insertionSort distLE (stationAnglePairs la lo q1 q2)).take k,
      p.2 < la.length ∧ p.1 = haversineAngle q1 q2 (la.getD p.2 0) (lo.getD p.2 0)) ∧
    (((List.insertionSort distLE (stationAnglePairs la lo q1 q2)).take k).map Prod.snd).Nodup ∧
    (∀ m, m < la.length →
      m ∉ ((List.insertionSort distLE (stationAnglePairs la lo q1 q2)).take k).map Prod.snd →
      ∀ p ∈ (List.insertionSort distLE (stationAnglePairs la lo q1 q2)).take k,
        p.1 ≤ haversineAngle q1 q2 (la.getD m 0) (lo.getD m 0)) := by
  have hperm := List.perm_insertionSort distLE (stationAnglePairs la lo q1 q2)
  have hsorted := List.sorted_insertionSort distLE (stationAnglePairs la lo q1 q2)
  have hSlen : (List.insertionSort distLE (stationAnglePairs la lo q1 q2)).length = la.length := by
    rw [hperm.length_eq, stationAnglePairs_length]
  refine ⟨?_, ?_, ?_, ?_, ?_⟩
  · rw [List.length_take, hSlen]
    exact Nat.min_eq_left hk
  · have hst : List.Sorted distLE
        ((List.insertionSort distLE (stationAnglePairs la lo q1 q2)).take k) :=
      hsorted.sublist (List.take_sublist k _)
    exact hst.map Prod.fst fun a b h => h
  · intro p hp
    exact mem_stationAnglePairs.1 (hperm.mem_iff.1 (List.mem_of_mem_take hp))
  · have hnd : ((List.insertionSort distLE
        (stationAnglePairs la lo q1 q2)).map Prod.snd).Nodup := by
      rw [(hperm.map Prod.snd).nodup_iff, stationAnglePairs_map_snd]
      exact List.nodup_range _
    exact hnd.sublist ((List.take_sublist k _).map Prod.snd)
  · intro m hm hmem p hp
    have hpm : (haversineAngle q1 q2 (la.getD m 0) (lo.getD m 0), m) ∈
        List.insertionSort distLE (stationAnglePairs la lo q1 q2) :=
      hperm.mem_iff.2 (mem_stationAnglePairs.2 ⟨hm, rfl⟩)
    rw [← List.take_append_drop k
      (List.insertionSort distLE (stationAnglePairs la lo q1 q2))] at hpm
    rcases List.mem_append.1 hpm with h1 | h2
    · exact absurd (List.mem_map.2 ⟨_, h1, rfl⟩) hmem
    · exact hsorted.rel_of_mem_take_of_mem_drop hp h2

lemma getD_map_fst (l : List (List (ℝ × ℕ))) (i : ℕ) :
    (l.map (List.map Prod.fst)).getD i [] = (l.getD i []).map Prod.fst := by
  induction l generalizing i with
  | nil => simp
  | cons a t ih =>
    cases i with
    | zero => simp
    | succ j => simpa using ih j

lemma getD_map_snd (l : List (List (ℝ × ℕ))) (i : ℕ) :
    (l.map (List.map Prod.snd)).getD i [] = (l.getD i []).map Prod.snd := by
  induction l generalizing i with
  | nil => simp
  | cons a t ih =>
    cases i with
    | zero => simp
    | succ j => simpa using ih j

lemma getD_map_of_lt {α β : Type} (g : α → β) (l : List α) (i : ℕ) (d : α) (e : β)
    (h : i < l.length) : (l.map g).getD i e = g (l.getD i d) := by
  induction l generalizing i with
  | nil => simp at h
  | cons a t ih =>
    cases i with
    | zero => simp
    | succ j =>
      simp only [List.map_cons, List.getD_cons_succ]
      exact ih j (by simpa using h)

lemma derive_components (la lo : List ℝ) (c : Coordinates) (k i : ℕ)
    (hi : i < (c.latitudes.zip c.longitudes).length) :
    (derive_nearest_neighbours la lo c k).1.getD i [] =
      ((List.insertionSort distLE (stationAnglePairs la lo
        ((c.latitudes.zip c.longitudes).getD i (0, 0)).1
        ((c.latitudes.zip c.longitudes).getD i (0, 0)).2)).take k).map Prod.fst ∧
    (derive_nearest_neighbours la lo c k).2.getD i [] =
      ((List.insertionSort distLE (stationAnglePairs la lo
        ((c.latitudes.zip c.longitudes).getD i (0, 0)).1
        ((c.latitudes.zip c.longitudes).getD i (0, 0)).2)).take k).map Prod.snd := by
  unfold derive_nearest_neighbours
  constructor
  · rw [getD_map_fst]
    rw [getD_map_of_lt _ _ i (0, 0) [] hi]
  · rw [getD_map_snd]
    rw [getD_map_of_lt _ _ i (0, 0) [] hi]

lemma getD_mem {α : Type} (l : List α) (j : ℕ) (d : α) (h : j < l.length) :
    l.getD j d ∈ l := by
  induction l generalizing j with
  | nil => simp at h
  | cons a t ih =>
    cases j with
    | zero => simp
    | succ n =>
      simp only [List.getD_cons_succ]
      exact List.mem_cons_of_mem a (ih n (by simpa using h))

/-- C2: amended form of the nearest-neighbour resolver contract. For every
    paired station coordinate array of length N at least 1, every query
    coordinate set and every k between 1 and N, derive_nearest_neighbours
    returns per query point k distances ascending in j, where distances i j is
    the great-circle central angle in radians on the unit sphere (not
    kilometers) from query point i to the station whose row index is
    indices i j; the indices are distinct, in range, and no station outside
    the selection is nearer than a selected one. -/
theorem derive_nearest_neighbours_spec (latitudes longitudes : List ℝ)
    (coordinates : Coordinates) (k : ℕ)
    (hlen : longitudes.length = latitudes.length)
    (hk1 : 1 ≤ k) (hk : k ≤ latitudes.length) :
    ∀ i, i < (coordinates.latitudes.zip coordinates.longitudes).length →
      ((derive_nearest_neighbours latitudes longitudes coordinates k).1.getD i []).length = k ∧
      ((derive_nearest_neighbours latitudes longitudes coordinates k).2.getD i []).length = k ∧
      List.Sorted (· ≤ ·)
        ((derive_nearest_neighbours latitudes longitudes coordinates k).1.getD i []) ∧
      ((derive_nearest_neighbours latitudes longitudes coordinates k).2.getD i []).Nodup ∧
      (∀ j, j < k →
        ((derive_nearest_neighbours latitudes longitudes coordinates k).2.getD i []).getD j 0 <
          latitudes.length ∧
        ((derive_nearest_neighbours latitudes longitudes coordinates k).1.getD i []).getD j 0 =
          haversineAngle
            (((coordinates.latitudes.zip coordinates.longitudes)).getD i (0, 0)).1
            (((coordinates.latitudes.zip coordinates.longitudes)).getD i (0, 0)).2
            (latitudes.getD
              (((derive_nearest_neighbours latitudes longitudes coordinates k).2.getD i []).getD j 0) 0)
            (longitudes.getD
              (((derive_nearest_neighbours latitudes longitudes coordinates k).2.getD i []).getD j 0) 0)) ∧
      (∀ m, m < latitudes.length →
        m ∉ (derive_nearest_neighbours latitudes longitudes coordinates k).2.getD i [] →
        ∀ j, j < k →
          ((derive_nearest_neighbours latitudes longitudes coordinates k).1.getD i []).getD j 0 ≤
            haversineAngle
              (((coordinates.latitudes.zip coordinates.longitudes)).getD i (0, 0)).1
              (((coordinates.latitudes.zip coordinates.longitudes)).getD i (0, 0)).2
              (latitudes.getD m 0) (longitudes.getD m 0)) := by
  intro i hi
  obtain ⟨hD, hI⟩ := derive_components latitudes longitudes coordinates k i hi
  obtain ⟨hlen', hsort, hmemspec, hnodup, hmin⟩ := ranked_take_spec latitudes longitudes
    ((coordinates.latitudes.zip coordinates.longitudes).getD i (0, 0)).1
    ((coordinates.latitudes.zip coordinates.longitudes).getD i (0, 0)).2 k hk
  rw [hD, hI]
  have hTlen : (((List.insertionSort distLE (stationAnglePairs latitudes longitudes
      ((coordinates.latitudes.zip coordinates.longitudes).getD i (0, 0)).1
      ((coordinates.latitudes.zip coordinates.longitudes).getD i (0, 0)).2)).take k)).length = k :=
    hlen'
  refine ⟨by simpa using hTlen, by simpa using hTlen, hsort, hnodup, ?_, ?_⟩
  · intro j hj
    have hjT : j < (((List.insertionSort distLE (stationAnglePairs latitudes longitudes
        ((coordinates.latitudes.zip coordinates.longitudes).getD i (0, 0)).1
        ((coordinates.latitudes.zip coordinates.longitudes).getD i (0, 0)).2)).take k)).length := by
      rw [hTlen]; exact hj
    rw [getD_map_of_lt Prod.snd _ j (0, 0) 0 hjT, getD_map_of_lt Prod.fst _ j (0, 0) 0 hjT]
    exact hmemspec _ (getD_mem _ j (0, 0) hjT)
  · intro m hm hmem j hj
    have hjT : j < (((List.insertionSort distLE (stationAnglePairs latitudes longitudes
        ((coordinates.latitudes.zip coordinates.longitudes).getD i (0, 0)).1
        ((coordinates.latitudes.zip coordinates.longitudes).getD i (0, 0)).2)).take k)).length := by
      rw [hTlen]; exact hj
    rw [getD_map_of_lt Prod.fst _ j (0, 0) 0 hjT]
    exact hmin m hm hmem _ (getD_mem _ j (0, 0) hjT)

/-- C2 witness: the amended resolver contract instantiated at the concrete
    input of test_derive_nearest_neighbours with k equal to 1, at the first
    query point. -/
theorem derive_nearest_neighbours_spec_witness :
    ((derive_nearest_neighbours metaLats metaLons testCoords 1).1.getD 0 []).length = 1 ∧
    ((derive_nearest_neighbours metaLats metaLons testCoords 1).2.getD 0 []).length = 1 ∧
    List.Sorted (· ≤ ·)
      ((derive_nearest_neighbours metaLats metaLons testCoords 1).1.getD 0 []) ∧
    ((derive_nearest_neighbours metaLats metaLons testCoords 1).2.getD 0 []).Nodup ∧
    (∀ j, j < 1 →
      ((derive_nearest_neighbours metaLats metaLons testCoords 1).2.getD 0 []).getD j 0 <
        metaLats.length ∧
      ((derive_nearest_neighbours metaLats metaLons testCoords 1).1.getD 0 []).getD j 0 =
        haversineAngle
          (((testCoords.latitudes.zip testCoords.longitudes)).getD 0 (0, 0)).1
          (((testCoords.latitudes.zip testCoords.longitudes)).getD 0 (0, 0)).2
          (metaLats.getD
            (((derive_nearest_neighbours metaLats metaLons testCoords 1).2.getD 0 []).getD j 0) 0)
          (metaLons.getD
            (((derive_nearest_neighbours metaLats metaLons testCoords 1).2.getD 0 []).getD j 0) 0)) ∧
    (∀ m, m < metaLats.length →
      m ∉ (derive_nearest_neighbours metaLats metaLons testCoords 1).2.getD 0 [] →
      ∀ j, j < 1 →
        ((derive_nearest_neighbours metaLats metaLons testCoords 1).1.getD 0 []).getD j 0 ≤
          haversineAngle
            (((testCoords.latitudes.zip testCoords.longitudes)).getD 0 (0, 0)).1
            (((testCoords.latitudes.zip testCoords.longitudes)).getD 0 (0, 0)).2
            (metaLats.getD m 0) (metaLons.getD m 0)) :=
  derive_nearest_neighbours_spec metaLats metaLons testCoords 1
    (by simp [metaLats, metaLons]) (by norm_num) (by simp [metaLats]) 0
    (by simp [testCoords])

/-- C2 counterexample: at the concrete station table and query points of the
    in-repo test test_derive_nearest_neighbours, the first entry of the
    returned distances array is below 1/100, while the great-circle distance
    in kilometers from the first query point to every one of the six stations
    exceeds 1 kilometer; hence the returned distances are not great-circle
    distances in kilometers. -/
theorem derive_nearest_neighbours_not_km :
    (derive_nearest_neighbours metaLats metaLons testCoords 1).1.head!.head! < 1 / 100 ∧
    1 < EARTH_RADIUS * haversineAngle 50.0 8.9 52.1042 8.7521 ∧
    1 < EARTH_RADIUS * haversineAngle 50.0 8.9 52.8568 11.1319 ∧
    1 < EARTH_RADIUS * haversineAngle 50.0 8.9 49.9195 8.9671 ∧
    1 < EARTH_RADIUS * haversineAngle 50.0 8.9 55.0 6.3333 ∧
    1 < EARTH_RADIUS * haversineAngle 50.0 8.9 48.2639 8.8134 ∧
    1 < EARTH_RADIUS * haversineAngle 50.0 8.9 51.2835 9.359 := by
  have hne : stationAnglePairs metaLats metaLons 50.0 8.9 ≠ [] := by
    intro h
    have hl := stationAnglePairs_length metaLats metaLons 50.0 8.9
    rw [h] at hl
    simp [metaLats] at hl
  obtain ⟨p, rest, hS⟩ := exists_insertionSort_cons hne
  obtain ⟨hpmem, hpmin⟩ := insertionSort_cons_min hS
  have hmem2 : (haversineAngle 50.0 8.9 49.9195 8.9671, 2) ∈
      stationAnglePairs metaLats metaLons 50.0 8.9 := by
    refine mem_stationAnglePairs.2 ⟨by simp [metaLats], ?_⟩
    simp [metaLats, metaLons]
  have hple : p.1 ≤ haversineAngle 50.0 8.9 49.9195 8.9671 := hpmin _ hmem2
  have hhead : (derive_nearest_neighbours metaLats metaLons testCoords 1).1.head!.head! = p.1 := by
    unfold derive_nearest_neighbours testCoords
    simp only [List.zip_cons_cons, List.zip_nil_right, List.map_cons, List.map_nil]
    rw [hS]
    simp
  have hS2 := angle_schaafheim_bounds
  refine ⟨by rw [hhead]; linarith [hS2.2], ?_, ?_, ?_, ?_, ?_, ?_⟩
  · have hb := sinsq_d2_1042
    have e : (radians 52.1042 - radians 50.0) / 2 = radians 2.1042 / 2 := by
      unfold radians; ring
    exact haversineAngle_km_gt_one
      (by rw [e]; exact le_trans (by norm_num) hb.1)
      (by rw [e]; exact le_trans hb.2 (by norm_num))
      (cos_radians_pos (by norm_num) (by norm_num))
      (cos_radians_pos (by norm_num) (by norm_num))
      (sin_half_diff_sq_le_quarter (by norm_num))
  · have hb := sinsq_d2_8568
    have e : (radians 52.8568 - radians 50.0) / 2 = radians 2.8568 / 2 := by
      unfold radians; ring
    exact haversineAngle_km_gt_one
      (by rw [e]; exact le_trans (by norm_num) hb.1)
      (by rw [e]; exact le_trans hb.2 (by norm_num))
      (cos_radians_pos (by norm_num) (by norm_num))
      (cos_radians_pos (by norm_num) (by norm_num))
      (sin_half_diff_sq_le_quarter (by norm_num))
  · have hb := sinsq_d0805
    have e : (radians 49.9195 - radians 50.0) / 2 = -(radians 0.0805 / 2) := by
      unfold radians; ring
    exact haversineAngle_km_gt_one
      (by rw [e, Real.sin_neg, neg_sq]; exact le_trans (by norm_num) hb.1)
      (by rw [e, Real.sin_neg, neg_sq]; exact le_trans hb.2 (by norm_num))
      (cos_radians_pos (by norm_num) (by norm_num))
      (cos_radians_pos (by norm_num) (by norm_num))
      (sin_half_diff_sq_le_quarter (by norm_num))
  · have hb := sinsq_d5_0
    have e : (radians 55.0 - radians 50.0) / 2 = radians 5.0 / 2 := by
      unfold radians; ring
    exact haversineAngle_km_gt_one
      (by rw [e]; exact le_trans (by norm_num) hb.1)
      (by rw [e]; exact le_trans hb.2 (by norm_num))
      (cos_radians_pos (by norm_num) (by norm_num))
      (cos_radians_pos (by norm_num) (by norm_num))
      (sin_half_diff_sq_le_quarter (by norm_num))
  · have hb := sinsq_d1_7361
    have e : (radians 48.2639 - radians 50.0) / 2 = -(radians 1.7361 / 2) := by
      unfold radians; ring
    exact haversineAngle_km_gt_one
      (by rw [e, Real.sin_neg, neg_sq]; exact le_trans (by norm_num) hb.1)
      (by rw [e, Real.sin_neg, neg_sq]; exact le_trans hb.2 (by norm_num))
      (cos_radians_pos (by norm_num) (by norm_num))
      (cos_radians_pos (by norm_num) (by norm_num))
      (sin_half_diff_sq_le_quarter (by norm_num))
  · have hb := sinsq_d1_2835
    have e : (radians 51.2835 - radians 50.0) / 2 = radians 1.2835 / 2 := by
      unfold radians; ring
    exact haversineAngle_km_gt_one
      (by rw [e]; exact le_trans (by norm_num) hb.1)
      (by rw [e]; exact le_trans hb.2 (by norm_num))
      (cos_radians_pos (by norm_num) (by norm_num))
      (cos_radians_pos (by norm_num) (by norm_num))
      (sin_half_diff_sq_le_quarter (by norm_num))

lemma exampleStations_pairs :
    stationAnglePairs (exampleStations.map fun s => s.latitude)
      (exampleStations.map fun s => s.longitude) 50.0 8.9 =
    [(haversineAngle 50.0 8.9 50.0643 8.993, 0),
     (haversineAngle 50.0 8.9 49.9195 8.9671, 1),
     (haversineAngle 50.0 8.9 50.0899 8.7862, 2)] := by
  unfold stationAnglePairs
  have h3 : ((exampleStations.map fun s => s.latitude)).length = 3 := by
    simp [exampleStations]
  rw [h3]
  have hr : List.range 3 = [0, 1, 2] := rfl
  rw [hr]
  simp [exampleStations, kahl, schaafheim, offenbach]

lemma exampleStations_sort :
    List.insertionSort distLE (stationAnglePairs (exampleStations.map fun s => s.latitude)
      (exampleStations.map fun s => s.longitude) 50.0 8.9) =
    [(haversineAngle 50.0 8.9 50.0643 8.993, 0),
     (haversineAngle 50.0 8.9 49.9195 8.9671, 1),
     (haversineAngle 50.0 8.9 50.0899 8.7862, 2)] := by
  rw [exampleStations_pairs]
  have hKS : distLE (haversineAngle 50.0 8.9 50.0643 8.993, 0)
      (haversineAngle 50.0 8.9 49.9195 8.9671, 1) := by
    show haversineAngle 50.0 8.9 50.0643 8.993 ≤ haversineAngle 50.0 8.9 49.9195 8.9671
    linarith [angle_kahl_bounds.2, angle_schaafheim_bounds.1]
  have hSO : distLE (haversineAngle 50.0 8.9 49.9195 8.9671, 1)
      (haversineAngle 50.0 8.9 50.0899 8.7862, 2) := by
    show haversineAngle 50.0 8.9 49.9195 8.9671 ≤ haversineAngle 50.0 8.9 50.0899 8.7862
    linarith [angle_schaafheim_bounds.2, angle_offenbach_bounds.1]
  simp only [List.insertionSort, List.orderedInsert]
  rw [if_pos hSO]
  simp only [List.orderedInsert]
  rw [if_pos hKS]

/-- C1: on the three-station table of the scenario, filter_by_rank at the
    query point (50.0, 8.9) with one station returns exactly the Kahl/Main
    row annotated with a distance within 1/100 of 9.7594 kilometers; with
    three stations it returns all three rows ordered ascending by distance,
    Kahl/Main then Schaafheim-Schlierbach then Offenbach-Wetterpark, with
    distances within 1/100 of 9.7594, 10.1569 and 12.8827 kilometers, each
    row carrying the full station record plus the distance column. -/
theorem filter_by_rank_scenario :
    (filter_by_rank exampleStations 50.0 8.9 1 =
      .ok (.withDistance
        [(kahl, EARTH_RADIUS * haversineAngle 50.0 8.9 50.0643 8.993)]) ∧
     |EARTH_RADIUS * haversineAngle 50.0 8.9 50.0643 8.993 - 9.7594| < 1 / 100) ∧
    (filter_by_rank exampleStations 50.0 8.9 3 =
      .ok (.withDistance
        [(kahl, EARTH_RADIUS * haversineAngle 50.0 8.9 50.0643 8.993),
         (schaafheim, EARTH_RADIUS * haversineAngle 50.0 8.9 49.9195 8.9671),
         (offenbach, EARTH_RADIUS * haversineAngle 50.0 8.9 50.0899 8.7862)]) ∧
     EARTH_RADIUS * haversineAngle 50.0 8.9 50.0643 8.993 <
       EARTH_RADIUS * haversineAngle 50.0 8.9 49.9195 8.9671 ∧
     EARTH_RADIUS * haversineAngle 50.0 8.9 49.9195 8.9671 <
       EARTH_RADIUS * haversineAngle 50.0 8.9 50.0899 8.7862 ∧
     |EARTH_RADIUS * haversineAngle 50.0 8.9 49.9195 8.9671 - 10.1569| < 1 / 100 ∧
     |EARTH_RADIUS * haversineAngle 50.0 8.9 50.0899 8.7862 - 12.8827| < 1 / 100) := by
  have hK := angle_kahl_bounds
  have hS := angle_schaafheim_bounds
  have hO := angle_offenbach_bounds
  have hsort := exampleStations_sort
  refine ⟨⟨?_, ?_⟩, ?_, ?_, ?_, ?_, ?_⟩
  · unfold filter_by_rank
    rw [if_neg (by norm_num : ¬((1 : ℤ) < 1))]
    unfold rankedWithDistance derive_nearest_neighbours
    simp only [List.zip_cons_cons, List.zip_nil_right, List.map_cons, List.map_nil]
    rw [hsort]
    simp [exampleStations]
  · rw [abs_lt]
    unfold EARTH_RADIUS
    constructor
    · linarith [hK.1]
    · linarith [hK.2]
  · unfold filter_by_rank
    rw [if_neg (by norm_num : ¬((3 : ℤ) < 1))]
    unfold rankedWithDistance derive_nearest_neighbours
    simp only [List.zip_cons_cons, List.zip_nil_right, List.map_cons, List.map_nil]
    rw [hsort]
    simp [exampleStations]
  · unfold EARTH_RADIUS
    linarith [hK.2, hS.1]
  · unfold EARTH_RADIUS
    linarith [hS.2, hO.1]
  · rw [abs_lt]
    unfold EARTH_RADIUS
    constructor
    · linarith [hS.1]
    · linarith [hS.2]
  · rw [abs_lt]
    unfold EARTH_RADIUS
    constructor
    · linarith [hO.1]
    · linarith [hO.2]

/-- C3: unit conversion round trip. For every station table, query point and
    positive threshold in kilometers, filtering by that distance in
    kilometers and filtering by the same distance divided by 1.609344 in
    miles produce identical results, because the mile threshold is converted
    back to kilometers with the factor 1.609344 and the distance column is
    always reported in kilometers. -/
theorem filter_by_distance_unit_round_trip (table : List StationRecord)
    (latitude longitude d : ℝ) (hd : 0 < d) :
    filter_by_distance table latitude longitude d .km =
      filter_by_distance table latitude longitude (d / 1.609344) .mi := by
  have hd' : 0 < d / 1.609344 := div_pos hd (by norm_num)
  unfold filter_by_distance toKm
  rw [if_neg (by linarith : ¬ d ≤ 0), if_neg (by linarith : ¬ d / 1.609344 ≤ 0)]
  dsimp only
  rw [div_mul_cancel₀ d (by norm_num : (1.609344 : ℝ) ≠ 0)]

/-- C3 witness: the round trip instantiated on the empty table with a
    threshold of one kilometer. -/
theorem filter_by_distance_unit_round_trip_witness :
    filter_by_distance [] 0 0 1 .km = filter_by_distance [] 0 0 (1 / 1.609344) .mi :=
  filter_by_distance_unit_round_trip [] 0 0 1 (by norm_num)

/-- C4: for every station table and every rectangle with left below right and
    bottom below top, filter_by_bbox returns a plain result without a
    distance column whose rows are exactly the rows of the table whose
    longitude and latitude lie in the closed rectangle, in table order; a
    rectangle containing no station yields zero rows without an error. -/
theorem filter_by_bbox_spec (table : List StationRecord) (left bottom right top : ℝ)
    (h1 : left < right) (h2 : bottom < top) :
    ∃ rows, filter_by_bbox table left bottom right top = .ok (.plain rows) ∧
      rows.Sublist table ∧
      (∀ s, s ∈ rows ↔ s ∈ table ∧ (left ≤ s.longitude ∧ s.longitude ≤ right ∧
        bottom ≤ s.latitude ∧ s.latitude ≤ top)) ∧
      ((∀ s ∈ table, ¬(left ≤ s.longitude ∧ s.longitude ≤ right ∧
        bottom ≤ s.latitude ∧ s.latitude ≤ top)) → rows = []) := by
  unfold filter_by_bbox
  rw [if_neg (by push_neg; exact ⟨h1, h2⟩)]
  refine ⟨_, rfl, List.filter_sublist _, ?_, ?_⟩
  · intro s
    rw [List.mem_filter]
    simp
  · intro hall
    rw [List.filter_eq_nil]
    intro s hs
    simpa using hall s hs

/-- C4 witness: the bbox law instantiated on the three-station table with a
    rectangle disjoint from all station coordinates. -/
theorem filter_by_bbox_spec_witness :
    ∃ rows, filter_by_bbox exampleStations (-100) (-20) (-90) (-10) = .ok (.plain rows) ∧
      rows.Sublist exampleStations ∧
      (∀ s, s ∈ rows ↔ s ∈ exampleStations ∧ ((-100 : ℝ) ≤ s.longitude ∧
        s.longitude ≤ -90 ∧ (-20 : ℝ) ≤ s.latitude ∧ s.latitude ≤ -10)) ∧
      ((∀ s ∈ exampleStations, ¬((-100 : ℝ) ≤ s.longitude ∧ s.longitude ≤ -90 ∧
        (-20 : ℝ) ≤ s.latitude ∧ s.latitude ≤ -10)) → rows = []) :=
  filter_by_bbox_spec exampleStations (-100) (-20) (-90) (-10)
    (by norm_num) (by norm_num)

/-- C5: each filter entry point fails with a ValueError exactly when its
    numeric precondition is violated: filter_by_rank when the requested
    number of stations is below one, filter_by_distance when the maximum
    distance is not positive, and filter_by_bbox when the rectangle is
    degenerate or inverted. -/
theorem filter_value_error_conditions :
    (∀ (t : List StationRecord) (la lo : ℝ) (n : ℤ),
      (∃ msg, filter_by_rank t la lo n = .error (.valueError msg)) ↔ n < 1) ∧
    (∀ (t : List StationRecord) (la lo d : ℝ) (u : DistanceUnit),
      (∃ msg, filter_by_distance t la lo d u = .error (.valueError msg)) ↔ d ≤ 0) ∧
    (∀ (t : List StationRecord) (l b r tp : ℝ),
      (∃ msg, filter_by_bbox t l b r tp = .error (.valueError msg)) ↔ (l ≥ r ∨ b ≥ tp)) := by
  refine ⟨?_, ?_, ?_⟩
  · intro t la lo n
    unfold filter_by_rank
    by_cases h : n < 1
    · rw [if_pos h]
      simp [h]
    · rw [if_neg h]
      simp [h]
  · intro t la lo d u
    unfold filter_by_distance
    by_cases h : d ≤ 0
    · rw [if_pos h]
      simp [h]
    · rw [if_neg h]
      simp [h]
  · intro t l b r tp
    unfold filter_by_bbox
    by_cases h : l ≥ r ∨ b ≥ tp
    · rw [if_pos h]
      simp [h]
    · rw [if_neg h]
      simp [h]

/-- C6: for each required argument of a site-scoped radar request, omitting
    that argument while the earlier-checked arguments are supplied raises a
    ValueError naming it: a missing format yields the message Argument
    'format' is missing, a missing site yields Argument 'site' is missing,
    and a missing subset with the HDF5 format (and a non-LATEST date, whose
    check runs first) yields Argument 'subset' is missing. -/
theorem radar_missing_argument_errors :
    (∀ (p : DwdRadarParameter) (st : DwdRadarSite) (sub : Option DwdRadarSubset)
        (rso : Option String) (res0 : Option DwdRadarResolution)
        (per : Option DwdRadarPeriod) (dt : DwdRadarDate),
      p ∈ RADAR_PARAMETERS_SITES → parseRadarResolution rso = .ok res0 →
      validateRadarRequest ⟨p, some st, none, sub, rso, per, dt⟩ =
        .error (.valueError ("Argument 'format' is missing"))) ∧
    (∀ (p : DwdRadarParameter) (fq : Option DwdRadarDataFormat) (sub : Option DwdRadarSubset)
        (rso : Option String) (res0 : Option DwdRadarResolution)
        (per : Option DwdRadarPeriod) (dt : DwdRadarDate),
      p ∈ RADAR_PARAMETERS_SITES → parseRadarResolution rso = .ok res0 →
      validateRadarRequest ⟨p, none, fq, sub, rso, per, dt⟩ =
        .error (.valueError ("Argument 'site' is missing"))) ∧
    (∀ (p : DwdRadarParameter) (st : DwdRadarSite) (rso : Option String)
        (res0 : Option DwdRadarResolution) (per : Option DwdRadarPeriod)
        (dt : DwdRadarDate),
      p ∈ RADAR_PARAMETERS_SITES → parseRadarResolution rso = .ok res0 →
      dt ≠ .LATEST →
      validateRadarRequest ⟨p, some st, some .HDF5, none, rso, per, dt⟩ =
        .error (.valueError ("Argument 'subset' is missing"))) := by
  refine ⟨?_, ?_, ?_⟩
  · intro p st sub rso res0 per dt hmem hp
    have hpr : p ≠ DwdRadarParameter.RADOLAN_CDC := by
      intro he
      rw [he] at hmem
      revert hmem
      decide
    unfold validateRadarRequest
    dsimp only
    rw [hp]
    dsimp only
    rw [if_neg (fun h => hpr h.1)]
    rw [if_neg (fun h => Option.some_ne_none st h.2)]
    rw [if_pos ⟨hmem, rfl⟩]
  · intro p fq sub rso res0 per dt hmem hp
    have hpr : p ≠ DwdRadarParameter.RADOLAN_CDC := by
      intro he
      rw [he] at hmem
      revert hmem
      decide
    unfold validateRadarRequest
    dsimp only
    rw [hp]
    dsimp only
    rw [if_neg (fun h => hpr h.1)]
    rw [if_pos ⟨hmem, rfl⟩]
  · intro p st rso res0 per dt hmem hp hdt
    have hpr : p ≠ DwdRadarParameter.RADOLAN_CDC := by
      intro he
      rw [he] at hmem
      revert hmem
      decide
    unfold validateRadarRequest
    dsimp only
    rw [hp]
    dsimp only
    rw [if_neg (fun h => hpr h.1)]
    rw [if_neg (fun h => Option.some_ne_none st h.2)]
    rw [if_neg (fun h => Option.noConfusion h.2)]
    rw [if_neg (fun h => hpr h.2)]
    rw [if_neg (fun h => hdt h.1)]
    rw [if_pos ⟨rfl, rfl⟩]

/-- C6 witness: the three missing-argument failures at concrete requests,
    mirroring the radar validator tests. -/
theorem radar_missing_argument_errors_witness :
    validateRadarRequest ⟨.SWEEP_PCP_VELOCITY_H, some .BOO, none, none, none, none,
        .CURRENT⟩ = .error (.valueError ("Argument 'format' is missing")) ∧
    validateRadarRequest ⟨.SWEEP_PCP_VELOCITY_H, none, none, none, none, none,
        .LATEST⟩ = .error (.valueError ("Argument 'site' is missing")) ∧
    validateRadarRequest ⟨.SWEEP_PCP_VELOCITY_H, some .BOO, some .HDF5, none, none, none,
        .MOST_RECENT⟩ = .error (.valueError ("Argument 'subset' is missing")) :=
  ⟨radar_missing_argument_errors.1 _ _ none none none none .CURRENT (by decide) rfl,
   radar_missing_argument_errors.2.1 _ none none none none none .LATEST (by decide) rfl,
   radar_missing_argument_errors.2.2 _ _ none none none .MOST_RECENT (by decide) rfl
     (by decide)⟩

/-- C7: requesting the symbolic LATEST date with the HDF5 format on a
    site-scoped product, or with the RADOLAN_CDC family at any of its allowed
    resolutions, raises a ValueError stating that HDF5 data, respectively
    RADOLAN_CDC data, has no latest files. -/
theorem radar_latest_unsupported :
    (∀ (p : DwdRadarParameter) (st : DwdRadarSite) (sub : Option DwdRadarSubset)
        (rso : Option String) (res0 : Option DwdRadarResolution)
        (per : Option DwdRadarPeriod),
      p ∈ RADAR_PARAMETERS_SITES → parseRadarResolution rso = .ok res0 →
      validateRadarRequest ⟨p, some st, some .HDF5, sub, rso, per, .LATEST⟩ =
        .error (.valueError ("HDF5 data has no '-latest-' files"))) ∧
    (∀ (st : Option DwdRadarSite) (fq : Option DwdRadarDataFormat)
        (sub : Option DwdRadarSubset) (rso : Option String)
        (res0 : Option DwdRadarResolution) (per : Option DwdRadarPeriod),
      parseRadarResolution rso = .ok res0 →
      (res0 = some .DAILY ∨ res0 = some .HOURLY) →
      validateRadarRequest ⟨.RADOLAN_CDC, st, fq, sub, rso, per, .LATEST⟩ =
        .error (.valueError ("RADOLAN_CDC data has no '-latest-' files"))) := by
  constructor
  · intro p st sub rso res0 per hmem hp
    have hpr : p ≠ DwdRadarParameter.RADOLAN_CDC := by
      intro he
      rw [he] at hmem
      revert hmem
      decide
    unfold validateRadarRequest
    dsimp only
    rw [hp]
    dsimp only
    rw [if_neg (fun h => hpr h.1)]
    rw [if_neg (fun h => Option.some_ne_none st h.2)]
    rw [if_neg (fun h => Option.noConfusion h.2)]
    rw [if_neg (fun h => hpr h.2)]
    rw [if_pos ⟨rfl, rfl⟩]
  · intro st fq sub rso res0 per hp hres
    unfold validateRadarRequest
    dsimp only
    rw [hp]
    dsimp only
    rw [if_neg (fun h => by
      rcases hres with he | he
      · exact h.2.1 he
      · exact h.2.2 he)]
    rw [if_neg (fun h => absurd h.1 (by decide))]
    rw [if_neg (fun h => absurd h.1 (by decide))]
    rw [if_pos ⟨rfl, rfl⟩]

/-- C7 witness: the two latest-file failures at concrete requests, mirroring
    the radar validator tests, with both allowed RADOLAN_CDC resolutions. -/
theorem radar_latest_unsupported_witness :
    validateRadarRequest ⟨.SWEEP_PCP_VELOCITY_H, some .BOO, some .HDF5, none, none, none,
        .LATEST⟩ = .error (.valueError ("HDF5 data has no '-latest-' files")) ∧
    validateRadarRequest ⟨.RADOLAN_CDC, none, none, none, some ("daily"), none,
        .LATEST⟩ = .error (.valueError ("RADOLAN_CDC data has no '-latest-' files")) ∧
    validateRadarRequest ⟨.RADOLAN_CDC, none, none, none, some ("hourly"), none,
        .LATEST⟩ = .error (.valueError ("RADOLAN_CDC data has no '-latest-' files")) :=
  ⟨radar_latest_unsupported.1 _ _ none none none none (by decide) rfl,
   radar_latest_unsupported.2 none none none (some ("daily")) (some .DAILY) none rfl
     (Or.inl rfl),
   radar_latest_unsupported.2 none none none (some ("hourly")) (some .HOURLY) none rfl
     (Or.inr rfl)⟩

/-- C8: a resolution tag that is not a member of the resolution enumeration,
    such as minute_1, makes request construction fail with
    InvalidEnumeration, a constructor distinct from the ValueError kind,
    whatever the other arguments are. -/
theorem radar_invalid_resolution_enumeration :
    (∀ (p : DwdRadarParameter) (st : Option DwdRadarSite)
        (fq : Option DwdRadarDataFormat) (sub : Option DwdRadarSubset)
        (per : Option DwdRadarPeriod) (dt : DwdRadarDate),
      ∃ msg, validateRadarRequest ⟨p, st, fq, sub, some ("minute_1"), per, dt⟩ =
        .error (.invalidEnumeration msg)) ∧
    (∀ m1 m2, WdError.invalidEnumeration m1 ≠ WdError.valueError m2) := by
  constructor
  · intro p st fq sub per dt
    unfold validateRadarRequest parseRadarResolution
    dsimp only
    rw [if_neg (by decide : ¬ ("minute_1" = "daily"))]
    rw [if_neg (by decide : ¬ ("minute_1" = "hourly"))]
    rw [if_neg (by decide : ¬ ("minute_1" = "minute_5"))]
    exact ⟨_, rfl⟩
  · intro m1 m2 h
    exact WdError.noConfusion h

/-- C9: request validation is decided entirely at construction time as a
    pure function of the supplied fields: construction succeeds exactly when
    the declarative rule table of the spec is satisfied, so every invalid
    combination raises when the request object is built, before any resolver
    or fetch work. -/
theorem radar_validation_at_construction (req : RadarRequestInput) :
    (∃ v, validateRadarRequest req = .ok v) ↔ ruleTableOk req := by
  unfold validateRadarRequest ruleTableOk
  cases hp : parseRadarResolution req.resolution with
  | error e =>
    dsimp only
    constructor
    · intro ⟨v, hv⟩
      exact Except.noConfusion hv
    · intro ⟨⟨res, hres, _⟩, _⟩
      exact Except.noConfusion hres
  | ok res =>
    dsimp only
    by_cases h1 : req.parameter = .RADOLAN_CDC ∧ res ≠ some .DAILY ∧ res ≠ some .HOURLY
    · rw [if_pos h1]
      constructor
      · intro ⟨v, hv⟩
        exact Except.noConfusion hv
      · intro ⟨⟨res', hres, hrad⟩, _⟩
        cases Except.ok.inj hres
        rcases hrad h1.1 with he | he
        · exact (h1.2.1 he).elim
        · exact (h1.2.2 he).elim
    · rw [if_neg h1]
      by_cases h2 : req.parameter ∈ RADAR_PARAMETERS_SITES ∧ req.site = none
      · rw [if_pos h2]
        constructor
        · intro ⟨v, hv⟩
          exact Except.noConfusion hv
        · intro ⟨_, hsite, _⟩
          exact ((hsite h2.1).1 h2.2).elim
      · rw [if_neg h2]
        by_cases h3 : req.parameter ∈ RADAR_PARAMETERS_SITES ∧ req.fmt = none
        · rw [if_pos h3]
          constructor
          · intro ⟨v, hv⟩
            exact Except.noConfusion hv
          · intro ⟨_, hsite, _⟩
            exact ((hsite h3.1).2 h3.2).elim
        · rw [if_neg h3]
          by_cases h4 : req.start_date = .LATEST ∧ req.parameter = .RADOLAN_CDC
          · rw [if_pos h4]
            constructor
            · intro ⟨v, hv⟩
              exact Except.noConfusion hv
            · intro ⟨_, _, hlat, _⟩
              exact ((hlat h4.1).1 h4.2).elim
          · rw [if_neg h4]
            by_cases h5 : req.start_date = .LATEST ∧ req.fmt = some .HDF5
            · rw [if_pos h5]
              constructor
              · intro ⟨v, hv⟩
                exact Except.noConfusion hv
              · intro ⟨_, _, hlat, _⟩
                exact ((hlat h5.1).2 h5.2).elim
            · rw [if_neg h5]
              by_cases h6 : req.fmt = some .HDF5 ∧ req.subset = none
              · rw [if_pos h6]
                constructor
                · intro ⟨v, hv⟩
                  exact Except.noConfusion hv
                · intro ⟨_, _, _, hsub⟩
                  exact (hsub h6.1 h6.2).elim
              · rw [if_neg h6]
                constructor
                · intro _
                  refine ⟨⟨res, rfl, ?_⟩, ?_, ?_, ?_⟩
                  · intro hpar
                    by_contra hc
                    push_neg at hc
                    exact h1 ⟨hpar, hc.1, hc.2⟩
                  · intro hmem
                    constructor
                    · intro hsite
                      exact h2 ⟨hmem, hsite⟩
                    · intro hfmt
                      exact h3 ⟨hmem, hfmt⟩
                  · intro hlat
                    constructor
                    · intro hpar
                      exact h4 ⟨hlat, hpar⟩
                    · intro hfmt
                      exact h5 ⟨hlat, hfmt⟩
                  · intro hfmt hsub
                    exact h6 ⟨hfmt, hsub⟩
                · intro _
                  exact ⟨_, rfl⟩

/-- C10: WsvPegelValues collect_station_parameter returns an empty frame,
    not an exception, when the measurements endpoint reports the file as not
    found; and when data is returned, every row of the produced frame carries
    the lowercased parameter enum value in its parameter column. -/
theorem wsv_collect_station_parameter_spec
    (fs : String → Except FsError (List RawMeasurement)) (sid : String)
    (p : WsvPegelParameter) :
    (fs (wsvEndpoint sid p.value) = .error .fileNotFound →
      collect_station_parameter fs sid p = .ok []) ∧
    (∀ raw, fs (wsvEndpoint sid p.value) = .ok raw →
      ∃ rows, collect_station_parameter fs sid p = .ok rows ∧
        ∀ r ∈ rows, r.parameter = strToLower p.value) := by
  constructor
  · intro h
    unfold collect_station_parameter
    rw [h]
  · intro raw h
    unfold collect_station_parameter
    rw [h]
    refine ⟨_, rfl, ?_⟩
    intro r hr
    rcases List.mem_map.1 hr with ⟨m, _, he⟩
    rw [← he]

/-- C10 witness: the collector evaluated on a filesystem stub reporting a
    missing file, and on one returning a single measurement. -/
theorem wsv_collect_station_parameter_spec_witness :
    collect_station_parameter (fun _ => .error .fileNotFound) ("126013") .WATER_LEVEL =
      .ok [] ∧
    ∃ rows, collect_station_parameter (fun _ => .ok [⟨("2021-01-01T00:00:00"), 42⟩])
        ("126013") .WATER_LEVEL = .ok rows ∧
      ∀ r ∈ rows, r.parameter = strToLower (WsvPegelParameter.WATER_LEVEL.value) :=
  ⟨(wsv_collect_station_parameter_spec (fun _ => .error .fileNotFound) ("126013")
      .WATER_LEVEL).1 rfl,
   (wsv_collect_station_parameter_spec (fun _ => .ok [⟨("2021-01-01T00:00:00"), 42⟩])
      ("126013") .WATER_LEVEL).2 [⟨("2021-01-01T00:00:00"), 42⟩] rfl⟩

/-- C5 witness: the three precondition failures at the concrete inputs of
    the failing filter test. -/
theorem filter_value_error_conditions_witness :
    (∃ msg, filter_by_rank [] 51.4 9.3 0 = .error (.valueError msg)) ∧
    (∃ msg, filter_by_distance [] 51.4 9.3 (-1) .km = .error (.valueError msg)) ∧
    (∃ msg, filter_by_bbox [] 10 10 5 5 = .error (.valueError msg)) :=
  ⟨(filter_value_error_conditions.1 [] 51.4 9.3 0).2 (by norm_num),
   (filter_value_error_conditions.2.1 [] 51.4 9.3 (-1) .km).2 (by norm_num),
   (filter_value_error_conditions.2.2 [] 10 10 5 5).2 (by norm_num)⟩

/-- C8 witness: the InvalidEnumeration failure at the concrete request of
    the invalid time resolution test. -/
theorem radar_invalid_resolution_enumeration_witness :
    (∃ msg, validateRadarRequest ⟨DwdRadarParameter.RADOLAN_CDC, none, none, none,
      some ("minute_1"), some .RECENT, .timestamp ("2019-08-08 00:50:00")⟩ =
        .error (.invalidEnumeration msg)) ∧
    WdError.invalidEnumeration "e1" ≠ WdError.valueError "e2" :=
  ⟨radar_invalid_resolution_enumeration.1 DwdRadarParameter.RADOLAN_CDC none none none
      (some .RECENT) (.timestamp ("2019-08-08 00:50:00")),
   radar_invalid_resolution_enumeration.2 "e1" "e2"⟩

/-- C9 witness: the construction-time equivalence instantiated at a concrete
    valid request. -/
theorem radar_validation_at_construction_witness :
    (∃ v, validateRadarRequest ⟨DwdRadarParameter.PE_ECHO_TOP, some .BOO, some .BUFR,
      none, none, none, .timestamp ("2099-01-01 00:00:00")⟩ = .ok v) ↔
    ruleTableOk ⟨DwdRadarParameter.PE_ECHO_TOP, some .BOO, some .BUFR,
      none, none, none, .timestamp ("2099-01-01 00:00:00")⟩ :=
  radar_validation_at_construction ⟨DwdRadarParameter.PE_ECHO_TOP, some .BOO, some .BUFR,
    none, none, none, .timestamp ("2099-01-01 00:00:00")⟩

end Wetterdienst
